import Mathlib

/-!
# Verification of the ReconoMed document-understanding engine

Shallow embedding, in Lean 4, of the parts of the repository that the
claims concern:

* `app/utils/romanian_validation.py` — CNP validation and derivation,
* `app/services/ocr.py` — multi-strategy text extraction and its fallback,
* `app/services/enhanced_ocr.py` — layout classifier, structured-data
  extraction, final confidence aggregation,
* `app/services/romanian_id_processor.py` — region-based ID extraction,
* `app/services/romanian_document_templates.py` — the template registry.

Modelling conventions:

* Python exceptions are modelled with `Except String`; a `try`/`except`
  block becomes a `match` on the inner result.  A Python function that can
  raise an uncaught exception is embedded with result type
  `Except String α`.
* Python `float` arithmetic is modelled by exact rationals (`ℚ`);
  `int(x)` truncation toward zero is `pyTrunc`.
* Python strings are Lean `String`s.  `str.isdigit` distinguishes three
  character classes: Unicode decimal digits (`Nd`, accepted by `int`),
  other digit-class characters (e.g. superscripts, for which `int`
  raises `ValueError`), and non-digits.  The character table `charKind`
  models this classification exactly on the fragment of Unicode used
  below: the ASCII digits and Arabic-Indic digits U+0660–U+0669 are
  decimal, the superscripts U+00B9/U+00B2/U+00B3 are digit-class but not
  decimal, and every other character of the fragment is a non-digit.
* Regular-expression matching, the Tesseract recognizer, and PIL image
  decoding are external capabilities; they are abstracted as oracle
  function parameters, universally quantified in every theorem.
* Images are canonical grayscale (mode `L`) pixel buffers, as produced
  by the normalizer; a numpy array of such an image is 2-dimensional.
* `datetime.now().year` is abstracted as an explicit `currentYear`
  parameter.
-/

namespace ReconoMed

/-! ## Python primitives -/

/-- Classification of a character for Python's `str.isdigit` / `int`. -/
inductive CharKind where
  | decimal (v : Nat)
  | otherDigit
  | nonDigit
deriving DecidableEq

/-- Character table: ASCII digits and Arabic-Indic digits U+0660–U+0669
are Unicode decimal digits; the superscripts ¹ ² ³ are digit-class
characters that `int()` rejects; all remaining characters in scope are
non-digits. -/
def charKind (c : Char) : CharKind :=
  if c.isDigit then .decimal (c.toNat - 48)
  else if c.toNat = 0xB9 ∨ c.toNat = 0xB2 ∨ c.toNat = 0xB3 then .otherDigit
  else if 0x660 ≤ c.toNat ∧ c.toNat ≤ 0x669 then .decimal (c.toNat - 0x660)
  else .nonDigit

/-- Python `c.isdigit()` for a single character. -/
def pyIsDigitChar (c : Char) : Bool := charKind c != .nonDigit

/-- Python `s.isdigit()`: non-empty and every character digit-class. -/
def pyIsDigit (l : List Char) : Bool := !l.isEmpty && l.all pyIsDigitChar

/-- The decimal value of a character, when `int()` accepts it. -/
def decimalVal (c : Char) : Option Nat :=
  match charKind c with
  | .decimal v => some v
  | _ => none

/-- The character is a Unicode decimal digit (category `Nd`). -/
def isDecimal (c : Char) : Bool := (decimalVal c).isSome

/-- The character is an ASCII digit `0`–`9`. -/
def isASCIIDigit (c : Char) : Bool := c.isDigit

/-- Python `int(s)` on a string of digit-class characters: succeeds iff
every character is a Unicode decimal digit (the other `int` features —
sign, whitespace, underscores — are unreachable behind `isdigit`). -/
def pyInt (l : List Char) : Option Nat :=
  if l.isEmpty then none
  else (l.mapM decimalVal).map (·.foldl (fun a d => 10 * a + d) 0)

/-- Python `int(x)` on a rational: truncation toward zero. -/
def pyTrunc (q : ℚ) : Int := if 0 ≤ q then ⌊q⌋ else ⌈q⌉

/-- ASCII whitespace as recognized by Python `str.strip`. -/
def isPyWS (c : Char) : Bool :=
  c = ' ' ∨ c = '\t' ∨ c = '\n' ∨ c = '\x0d' ∨ c = '\x0b' ∨ c = '\x0c'

/-- Python `s.strip()`. -/
def pyStrip (s : String) : String :=
  ⟨((s.data.dropWhile isPyWS).reverse.dropWhile isPyWS).reverse⟩

/-- Result of a Python computation: `Except.error` is an uncaught
exception carrying its description. -/
abbrev PyResult (α : Type) := Except String α

/-! ## Calendar model (`datetime`) -/

def isLeapYear (y : Nat) : Bool :=
  (y % 4 == 0 && y % 100 != 0) || y % 400 == 0

def daysInMonth (y m : Nat) : Nat :=
  if m = 2 then (if isLeapYear y then 29 else 28)
  else if m = 4 ∨ m = 6 ∨ m = 9 ∨ m = 11 then 30
  else 31

/-- Validity of `datetime(year, month, day)`: the constructor raises
`ValueError` unless `1 ≤ year ≤ 9999`, the month is 1–12 and the day
fits the Gregorian month length. -/
def datetimeValid (y m d : Nat) : Bool :=
  1 ≤ y && y ≤ 9999 && 1 ≤ m && m ≤ 12 && 1 ≤ d && d ≤ daysInMonth y m

/-! ## `app/utils/romanian_validation.py` -/

/-- The checksum weights of `validate_cnp`. -/
def cnpWeights : List Nat := [2, 7, 9, 1, 4, 6, 3, 5, 8, 2, 7, 9]

/-- The body of the `try:` block of `validate_cnp`: parses the date
digits, selects the century from the first digit, and checks the
calendar date and the year range.  `Except.error ()` is a raised
`ValueError` (caught by the enclosing `except ValueError`);
`Except.ok (some r)` is an early `return r`; `Except.ok none` falls
through the block. -/
def cnpTryBlock (currentYear : Nat) (l : List Char) :
    Except Unit (Option (Bool × Option String)) :=
  match pyInt ((l.drop 1).take 2), pyInt ((l.drop 3).take 2),
        pyInt ((l.drop 5).take 2), pyInt (l.take 1) with
  | some yearDigits, some month, some day, some firstDigit =>
    let centuryOpt : Option Nat :=
      if firstDigit = 1 ∨ firstDigit = 2 then some 1900
      else if firstDigit = 3 ∨ firstDigit = 4 then some 1800
      else if firstDigit = 5 ∨ firstDigit = 6 then some 2000
      else none
    match centuryOpt with
    | none => .ok (some (false, some "Invalid CNP first digit"))
    | some base =>
      let year := base + yearDigits
      if !datetimeValid year month day then .error ()
      else if year > currentYear ∨ year < 1800 then
        .ok (some (false, some "Invalid birth year in CNP"))
      else .ok none
  | _, _, _, _ => .error ()

/-- Body of `validate_cnp` over the character list of its argument. -/
def validateCNPChars (currentYear : Nat) (l : List Char) :
    PyResult (Bool × Option String) :=
  if l.isEmpty ∨ l.length ≠ 13 then
    .ok (false, some "CNP must be exactly 13 digits")
  else if !pyIsDigit l then
    .ok (false, some "CNP must contain only digits")
  else
    match cnpTryBlock currentYear l with
    | .ok (some r) => .ok r
    | .error _ => .ok (false, some "Invalid birth date in CNP")
    | .ok none =>
      match (List.range 12).mapM (fun i => decimalVal (l.getD i ' ')) with
      | none => .error "ValueError: invalid literal for int() with base 10"
      | some ds =>
        let checksum0 := ((ds.zipWith (· * ·) cnpWeights).sum) % 11
        let checksum := if checksum0 = 10 then 1 else checksum0
        match decimalVal (l.getD 12 ' ') with
        | none => .error "ValueError: invalid literal for int() with base 10"
        | some d12 =>
          if checksum ≠ d12 then .ok (false, some "Invalid CNP checksum")
          else .ok (true, none)

/-- `validate_cnp` (romanian_validation.py lines 6–50).  Returns the
`(bool, Optional[str])` pair; `Except.error` is an uncaught exception
(the `int()` calls of the checksum section sit outside the
`try`/`except ValueError` block). -/
def validate_cnp (currentYear : Nat) (cnp : String) :
    PyResult (Bool × Option String) :=
  validateCNPChars currentYear cnp.data

/-- Zero-padded decimal rendering, Python `f"{n:02d}"`. -/
def pad2 (n : Nat) : String := if n < 10 then "0" ++ toString n else toString n

/-- Zero-padded decimal rendering, Python `f"{n:04d}"`. -/
def pad4 (n : Nat) : String :=
  if n < 10 then "000" ++ toString n
  else if n < 100 then "00" ++ toString n
  else if n < 1000 then "0" ++ toString n
  else toString n

/-- `extract_birth_date_from_cnp` (romanian_validation.py lines 52–71).
Re-validates, then re-parses the digits; the missing `else` of the
century chain would leave `year` unbound (`NameError`), modelled as an
error. -/
def extract_birth_date_from_cnp (currentYear : Nat) (cnp : String) :
    PyResult (Option String) :=
  match validate_cnp currentYear cnp with
  | .error e => .error e
  | .ok (false, _) => .ok none
  | .ok (true, _) =>
    let l := cnp.data
    match pyInt ((l.drop 1).take 2), pyInt ((l.drop 3).take 2),
          pyInt ((l.drop 5).take 2), pyInt (l.take 1) with
    | some yearDigits, some month, some day, some firstDigit =>
      let centuryOpt : Option Nat :=
        if firstDigit = 1 ∨ firstDigit = 2 then some 1900
        else if firstDigit = 3 ∨ firstDigit = 4 then some 1800
        else if firstDigit = 5 ∨ firstDigit = 6 then some 2000
        else none
      match centuryOpt with
      | none => .error "NameError: name year is not defined"
      | some base =>
        .ok (some (pad4 (base + yearDigits) ++ "-" ++ pad2 month ++ "-" ++ pad2 day))
    | _, _, _, _ => .error "ValueError: invalid literal for int() with base 10"

/-- `extract_gender_from_cnp` (romanian_validation.py lines 73–80). -/
def extract_gender_from_cnp (currentYear : Nat) (cnp : String) :
    PyResult (Option String) :=
  match validate_cnp currentYear cnp with
  | .error e => .error e
  | .ok (false, _) => .ok none
  | .ok (true, _) =>
    match cnp.data.head? with
    | none => .error "IndexError: string index out of range"
    | some c0 =>
      match decimalVal c0 with
      | none => .error "ValueError: invalid literal for int() with base 10"
      | some d1 =>
        .ok (some (if d1 = 1 ∨ d1 = 3 ∨ d1 = 5 then "M" else "F"))

/-! ## Specification-side CNP predicate (claim C1) -/

/-- The decimal value of the `i`-th character of the list (0-indexed),
defaulting to `0`. -/
def cnpDigitChars (l : List Char) (i : Nat) : Nat :=
  (decimalVal (l.getD i ' ')).getD 0

/-- The decimal value of the `i`-th character of the string (0-indexed),
defaulting to `0`. -/
def cnpDigit (cnp : String) (i : Nat) : Nat :=
  cnpDigitChars cnp.data i

/-- Century selected by the first digit, per the spec. -/
def cnpCentury (d1 : Nat) : Option Nat :=
  if d1 = 1 ∨ d1 = 2 then some 1900
  else if d1 = 3 ∨ d1 = 4 then some 1800
  else if d1 = 5 ∨ d1 = 6 then some 2000
  else none

/-- Spec-side checksum over a character list: weights applied to digits
1–12 (1-indexed), sum mod 11, remainder 10 mapped to control digit 1. -/
def cnpSpecChecksumChars (l : List Char) : Nat :=
  let s := (((List.range 12).map (cnpDigitChars l)).zipWith (· * ·) cnpWeights).sum % 11
  if s = 10 then 1 else s

/-- Claim C1's validity condition over a character list. -/
def cnpSpecOkChars (currentYear : Nat) (l : List Char) : Bool :=
  l.length = 13 && l.all isDecimal &&
  (match cnpCentury (cnpDigitChars l 0) with
   | none => false
   | some base =>
     let year := base + (10 * cnpDigitChars l 1 + cnpDigitChars l 2)
     let month := 10 * cnpDigitChars l 3 + cnpDigitChars l 4
     let day := 10 * cnpDigitChars l 5 + cnpDigitChars l 6
     datetimeValid year month day && 1800 ≤ year && year ≤ currentYear &&
     cnpSpecChecksumChars l = cnpDigitChars l 12)

/-- Formalisation of claim C1's validity condition, with `ASCII digits`
amended to `Unicode decimal digits`: exactly 13 decimal digits, first
digit selecting a century, a real calendar date with year in
`[1800, currentYear]`, and a matching checksum digit. -/
def cnpSpecOk (currentYear : Nat) (cnp : String) : Bool :=
  cnpSpecOkChars currentYear cnp.data

/-! ## `app/services/ocr.py` -/

/-- The `medical_terms` list of `estimate_text_quality` (ocr.py 147–151). -/
def medical_terms_ocr : List String :=
  ["pacient", "patient", "data", "date", "laborator", "laboratory",
   "rezultate", "results", "normal", "analize", "test", "medic",
   "doctor", "spital", "hospital", "diagnostic", "diagnosis"]

/-- `as` is a prefix of `bs` (character comparison). -/
def isPrefixOfChars : List Char → List Char → Bool
  | [], _ => true
  | _ :: _, [] => false
  | a :: as, b :: bs => a == b && isPrefixOfChars as bs

/-- Python `needle in hay` on strings. -/
def containsSub (hay needle : String) : Bool :=
  (List.range (hay.data.length + 1)).any fun i =>
    isPrefixOfChars needle.data (hay.data.drop i)

/-- Python `str.lower` on the alphabet in scope (ASCII plus the Romanian
diacritics used by the source). -/
def pyLowerChar (c : Char) : Char :=
  if 'A' ≤ c ∧ c ≤ 'Z' then Char.ofNat (c.toNat + 32)
  else if c = 'Ă' then 'ă' else if c = 'Â' then 'â' else if c = 'Î' then 'î'
  else if c = 'Ș' then 'ș' else if c = 'Ț' then 'ț' else c

def pyLower (s : String) : String := ⟨s.data.map pyLowerChar⟩

/-- Python `c.isalnum()` on the alphabet in scope. -/
def pyIsAlnum (c : Char) : Bool :=
  ('0' ≤ c ∧ c ≤ '9') ∨ ('a' ≤ c ∧ c ≤ 'z') ∨ ('A' ≤ c ∧ c ≤ 'Z') ∨
  c ∈ ['ă', 'â', 'î', 'ș', 'ț', 'Ă', 'Â', 'Î', 'Ș', 'Ț']

/-- `estimate_text_quality` (ocr.py 136–170): base 50, +10 for length
over 100, +5 per recognized medical term, −20 when the special-character
ratio exceeds 0.3, +10 for Romanian diacritics, clamped to [0, 100];
texts shorter than 5 characters score 0. -/
def estimate_text_quality (text : String) : Int :=
  let l := text.data
  if l.length < 5 then 0
  else
    let score : Int := 50
    let score := if l.length > 100 then score + 10 else score
    let text_lower := pyLower text
    let medical_term_count :=
      (medical_terms_ocr.filter (fun t => containsSub text_lower t)).length
    let score := score + medical_term_count * 5
    let special := (l.filter (fun c =>
      !pyIsAlnum c && !([' ', '\n', '\t', '.', ',', ':', '-', '(', ')'].contains c))).length
    let score := if ((special : ℚ) / (l.length : ℚ)) > 3/10 then score - 20 else score
    let score := if ['ă', 'â', 'î', 'ș', 'ț'].any (fun c => l.contains c) then score + 10
      else score
    min 100 (max 0 score)

/-- `get_mock_ocr_text` (ocr.py 171–187): the hardcoded demonstration
lab report returned when every OCR strategy fails. -/
def get_mock_ocr_text : String :=
  "RAPORT DE LABORATOR MEDICAL\nPacient: Ion Popescu\nData: 15.01.2024\nNr. Laborator: LAB001\n\nRezultate Analize Sânge:\n- Hemoglobină: 14,2 g/dL (Normal: 12-16)\n- Leucocite: 7.500 /μL (Normal: 4.000-11.000)\n- Trombocite: 250.000 /μL (Normal: 150.000-400.000)\n- Glicemia: 95 mg/dL (Normal: 70-100)\n\nMedic: Dr. Ionescu\nObservații: Analize în limite normale"

/-- `extract_text_from_image` (ocr.py 68–134).  The pytesseract outcome
of each strategy is an oracle value: `.error` models a raised exception
(caught by the per-strategy `except`), `.ok text` the raw text.  The
loop keeps the highest-scoring, longest cleaned text; if the best
result is shorter than 10 characters or scores below 20, the hardcoded
mock text is returned instead. -/
def extract_text_from_image (strategyResults : List (PyResult String)) : String :=
  let best := strategyResults.foldl (fun best res =>
    match res with
    | .error _ => best
    | .ok text =>
      let cleaned := pyStrip text
      let conf := estimate_text_quality cleaned
      if conf > best.2 ∧ cleaned.data.length > best.1.data.length then (cleaned, conf)
      else best)
    ("", (0 : Int))
  if best.1.data.length < 10 ∨ best.2 < 20 then get_mock_ocr_text
  else best.1

/-! ## `_calculate_final_confidence` (enhanced_ocr.py 1104–1128) -/

/-- `_calculate_final_confidence`: the template match is `none` when no
template matched, `some c` its confidence; `field_count` is
`len(structured_data)` and `term_count` the length of the
`recognized_medical_terms` entry (0 when absent).  Python floats are
modelled by exact rationals and `int(x)` by truncation toward zero. -/
def calculate_final_confidence (ocr_confidence : Int) (template_confidence : Option ℚ)
    (field_count term_count : Nat) : Int :=
  let base : ℚ := ocr_confidence
  let base := match template_confidence with
    | some c => base + min (c * (3/10)) 20
    | none => base
  let base := if field_count ≠ 0 then base + min ((field_count : ℚ) * 2) 15 else base
  let base := if term_count ≠ 0 then base + min ((term_count : ℚ) * 3) 10 else base
  min (pyTrunc base) 100

/-! ## Image model and layout classifier (enhanced_ocr.py 616–722)

A canonical grayscale (mode `L`) image; `pixel r c` is the luminance of
row `r`, column `c` (row-major, as a 2-D numpy array). -/

structure GrayImage where
  width : Nat
  height : Nat
  pixel : Nat → Nat → Int

/-- `np.gradient` along axis 0 (rows): one-sided difference at the
edges, central difference halved in the interior. -/
def gradRow (px : Nat → Nat → Int) (h : Nat) (r c : Nat) : ℚ :=
  if r = 0 then ((px 1 c - px 0 c : Int) : ℚ)
  else if r = h - 1 then ((px r c - px (r - 1) c : Int) : ℚ)
  else ((px (r + 1) c - px (r - 1) c : Int) : ℚ) / 2

/-- `np.gradient` along axis 1 (columns). -/
def gradCol (px : Nat → Nat → Int) (w : Nat) (r c : Nat) : ℚ :=
  if c = 0 then ((px r 1 - px r 0 : Int) : ℚ)
  else if c = w - 1 then ((px r c - px r (c - 1) : Int) : ℚ)
  else ((px r (c + 1) - px r (c - 1) : Int) : ℚ) / 2

/-- Squared gradient magnitude; `sqrt(gx² + gy²) > t` is compared as
`gx² + gy² > t²` to stay in ℚ. -/
def edgeSq (px : Nat → Nat → Int) (h w : Nat) (r c : Nat) : ℚ :=
  gradRow px h r c * gradRow px h r c + gradCol px w r c * gradCol px w r c

/-- Number of positions of an `h × w` grid satisfying `p`. -/
def countPixels (h w : Nat) (p : Nat → Nat → Bool) : Nat :=
  ((List.range h).map (fun r => ((List.range w).filter (fun c => p r c)).length)).sum

/-- `np.gradient` raises `ValueError` when an axis has fewer than 2
elements. -/
def npGradientDefined (h w : Nat) : Bool := 2 ≤ h && 2 ≤ w

/-- `_detect_photo_region` (enhanced_ocr.py 653–683): over the left 30%
of the image, the fraction of pixels darker than 120 must exceed 0.10,
or the fraction of strong edges (gradient magnitude over 30) must
exceed 0.01. -/
def detect_photo_region (img : GrayImage) : PyResult Bool :=
  let lw := (pyTrunc ((img.width : ℚ) * (3/10))).toNat
  let size := img.height * lw
  let darkCount := countPixels img.height lw (fun r c => img.pixel r c < 120)
  if !npGradientDefined img.height lw then
    .error "ValueError: Shape of array too small to calculate a numerical gradient"
  else
    let strongCount := countPixels img.height lw
      (fun r c => edgeSq img.pixel img.height lw r c > 900)
    .ok (((darkCount : ℚ) / (size : ℚ) > 1/10) || ((strongCount : ℚ) / (size : ℚ) > 1/100))

/-- `_detect_structured_text_blocks` (enhanced_ocr.py 685–701): more
than 3 rows in which the number of pixels with gradient magnitude over
20 exceeds 10% of the row width. -/
def detect_structured_text_blocks (img : GrayImage) : PyResult Bool :=
  if !npGradientDefined img.height img.width then
    .error "ValueError: Shape of array too small to calculate a numerical gradient"
  else
    let textRows := ((List.range img.height).filter (fun r =>
      ((((List.range img.width).filter (fun c =>
          edgeSq img.pixel img.height img.width r c > 400)).length : ℚ)) >
        (img.width : ℚ) * (1/10))).length
    .ok (textRows > 3)

/-- `_detect_official_document_colors` (enhanced_ocr.py 703–722): for a
canonical grayscale buffer the numpy array is 2-dimensional, the
`len(shape) == 3` branch is skipped, and the function returns `False`. -/
def detect_official_document_colors (_img : GrayImage) : PyResult Bool :=
  .ok false

/-- The operative `_detect_document_layout` (enhanced_ocr.py 616–651,
the later of the two definitions in the class body, which overrides the
earlier revision at lines 143–207): decides `romanian_id` exactly when
the photo heuristic, the card-shape heuristic `1.3 < aspect < 1.8` and
the structured-text heuristic all hold.  This revision has no
`try`/`except`, so helper exceptions propagate. -/
def detect_document_layout (img : GrayImage) : PyResult String :=
  if img.height = 0 then .error "ZeroDivisionError: division by zero"
  else
    let aspect_ratio : ℚ := (img.width : ℚ) / (img.height : ℚ)
    match detect_photo_region img with
    | .error e => .error e
    | .ok photo_detected =>
      let is_card_shaped := decide ((13 : ℚ)/10 < aspect_ratio ∧ aspect_ratio < (9 : ℚ)/5)
      match detect_structured_text_blocks img with
      | .error e => .error e
      | .ok has_structured_layout =>
        match detect_official_document_colors img with
        | .error e => .error e
        | .ok has_official_colors =>
          if photo_detected && is_card_shaped && has_structured_layout then
            .ok "romanian_id"
          else if has_official_colors && has_structured_layout then
            .ok "official_document"
          else .ok "unknown_document"

/-- A 16 × 10 synthetic card image (aspect ratio 1.6): dark block on the
left quarter, alternating bright stripes of period 4 elsewhere, giving
at least 4 rows of high edge density. -/
def syntheticIDImage : GrayImage :=
  ⟨16, 10, fun r c => if c < 4 then 0 else if r % 4 < 2 then 0 else 255⟩

/-- A 37 × 20 synthetic image with aspect ratio 1.85 and the same photo
and structured-text features. -/
def wideCardImage : GrayImage :=
  ⟨37, 20, fun r c => if c < 11 then 0 else if r % 4 < 2 then 0 else 255⟩

/-- A degenerate 4 × 4 image: its left 30% crop is a single column, on
which `np.gradient` raises. -/
def tinyImage : GrayImage := ⟨4, 4, fun _ _ => 0⟩

/-! Integer-arithmetic evaluation forms of the heuristics (`edgeSq4` is
four times `edgeSq`, so every comparison can be carried out in ℤ; used
to evaluate the classifier on concrete images). -/

/-- Twice `gradRow`, as an integer. -/
def grad2Row (px : Nat → Nat → Int) (h : Nat) (r c : Nat) : Int :=
  if r = 0 then 2 * (px 1 c - px 0 c)
  else if r = h - 1 then 2 * (px r c - px (r - 1) c)
  else px (r + 1) c - px (r - 1) c

/-- Twice `gradCol`, as an integer. -/
def grad2Col (px : Nat → Nat → Int) (w : Nat) (r c : Nat) : Int :=
  if c = 0 then 2 * (px r 1 - px r 0)
  else if c = w - 1 then 2 * (px r c - px r (c - 1))
  else px r (c + 1) - px r (c - 1)

/-- Four times `edgeSq`, as an integer. -/
def edgeSq4 (px : Nat → Nat → Int) (h w : Nat) (r c : Nat) : Int :=
  grad2Row px h r c * grad2Row px h r c + grad2Col px w r c * grad2Col px w r c

/-- Integer form of `detect_photo_region`. -/
def detect_photo_region_int (img : GrayImage) : PyResult Bool :=
  let lw := 3 * img.width / 10
  let size := img.height * lw
  if !npGradientDefined img.height lw then
    .error "ValueError: Shape of array too small to calculate a numerical gradient"
  else
    .ok ((decide (size < 10 * countPixels img.height lw (fun r c => img.pixel r c < 120))) ||
         (decide (size < 100 * countPixels img.height lw
            (fun r c => 3600 < edgeSq4 img.pixel img.height lw r c))))

/-- Integer form of `detect_structured_text_blocks`. -/
def detect_structured_text_blocks_int (img : GrayImage) : PyResult Bool :=
  if !npGradientDefined img.height img.width then
    .error "ValueError: Shape of array too small to calculate a numerical gradient"
  else
    .ok (decide (3 < ((List.range img.height).filter (fun r =>
      img.width < 10 * ((List.range img.width).filter (fun c =>
        1600 < edgeSq4 img.pixel img.height img.width r c)).length)).length))

/-- Integer form of `detect_document_layout`. -/
def detect_document_layout_int (img : GrayImage) : PyResult String :=
  if img.height = 0 then .error "ZeroDivisionError: division by zero"
  else
    match detect_photo_region_int img with
    | .error e => .error e
    | .ok photo_detected =>
      let is_card_shaped :=
        decide (13 * img.height < 10 * img.width ∧ 5 * img.width < 9 * img.height)
      match detect_structured_text_blocks_int img with
      | .error e => .error e
      | .ok has_structured_layout =>
        if photo_detected && is_card_shaped && has_structured_layout then
          .ok "romanian_id"
        else .ok "unknown_document"

/-! ## `app/services/romanian_id_processor.py` -/

inductive RomanianIDType where
  | ECI_ELECTRONIC
  | CI_STANDARD
  | BI_OLD
  | UNKNOWN
deriving DecidableEq

def RomanianIDType.value : RomanianIDType → String
  | .ECI_ELECTRONIC => "carte_electronica"
  | .CI_STANDARD => "carte_identitate"
  | .BI_OLD => "buletin_identitate"
  | .UNKNOWN => "unknown"

/-- A per-field fractional region with its recognition configuration. -/
structure RegionSpec where
  x_start : ℚ
  x_end : ℚ
  y_start : ℚ
  y_end : ℚ
  ocr_config : String

/-- Region map of the `CI_STANDARD` template (romanian_id_processor.py
19–40). -/
def ci_standard_regions : List (String × RegionSpec) :=
  [("nume", ⟨(305 : ℚ)/1000, (935 : ℚ)/1000, (365 : ℚ)/1000, (415 : ℚ)/1000,
     "--psm 8 -c tessedit_char_whitelist=ABCDEFGHIJKLMNOPQRSTUVWXYZabcdefghijklmnopqrstuvwxyzĂÎÂȘȚăîâșț"⟩),
   ("prenume", ⟨(305 : ℚ)/1000, (935 : ℚ)/1000, (463 : ℚ)/1000, (513 : ℚ)/1000,
     "--psm 8 -c tessedit_char_whitelist=ABCDEFGHIJKLMNOPQRSTUVWXYZabcdefghijklmnopqrstuvwxyzĂÎÂȘȚăîâșț"⟩),
   ("cnp", ⟨(305 : ℚ)/1000, (570 : ℚ)/1000, (267 : ℚ)/1000, (307 : ℚ)/1000,
     "--psm 8 -c tessedit_char_whitelist=0123456789"⟩),
   ("address", ⟨(305 : ℚ)/1000, (935 : ℚ)/1000, (755 : ℚ)/1000, (855 : ℚ)/1000,
     "--psm 6 -c tessedit_char_whitelist=ABCDEFGHIJKLMNOPQRSTUVWXYZabcdefghijklmnopqrstuvwxyzĂÎÂȘȚăîâșț0123456789 .,-/"⟩)]

/-- Region map of the `ECI_ELECTRONIC` template (romanian_id_processor.py
42–61). -/
def eci_electronic_regions : List (String × RegionSpec) :=
  [("nume", ⟨(538 : ℚ)/1000, (938 : ℚ)/1000, (190 : ℚ)/1000, (240 : ℚ)/1000,
     "--psm 8 -c tessedit_char_whitelist=ABCDEFGHIJKLMNOPQRSTUVWXYZabcdefghijklmnopqrstuvwxyzĂÎÂȘȚăîâșț"⟩),
   ("prenume", ⟨(538 : ℚ)/1000, (938 : ℚ)/1000, (252 : ℚ)/1000, (340 : ℚ)/1000,
     "--psm 8 -c tessedit_char_whitelist=ABCDEFGHIJKLMNOPQRSTUVWXYZabcdefghijklmnopqrstuvwxyzĂÎÂȘȚăîâșț"⟩),
   ("cnp", ⟨(538 : ℚ)/1000, (845 : ℚ)/1000, (488 : ℚ)/1000, (538 : ℚ)/1000,
     "--psm 8 -c tessedit_char_whitelist=0123456789"⟩)]

/-- Region map of the `BI_OLD` template (romanian_id_processor.py
63–80). -/
def bi_old_regions : List (String × RegionSpec) :=
  [("nume", ⟨(251 : ℚ)/1000, (600 : ℚ)/1000, (360 : ℚ)/1000, (420 : ℚ)/1000,
     "--psm 8 -c tessedit_char_whitelist=ABCDEFGHIJKLMNOPQRSTUVWXYZabcdefghijklmnopqrstuvwxyzĂÎÂȘȚăîâșț"⟩),
   ("prenume", ⟨(251 : ℚ)/1000, (600 : ℚ)/1000, (440 : ℚ)/1000, (500 : ℚ)/1000,
     "--psm 8 -c tessedit_char_whitelist=ABCDEFGHIJKLMNOPQRSTUVWXYZabcdefghijklmnopqrstuvwxyzĂÎÂȘȚăîâșț"⟩),
   ("address", ⟨(620 : ℚ)/1000, (950 : ℚ)/1000, (360 : ℚ)/1000, (500 : ℚ)/1000,
     "--psm 6 -c tessedit_char_whitelist=ABCDEFGHIJKLMNOPQRSTUVWXYZabcdefghijklmnopqrstuvwxyzĂÎÂȘȚăîâșț0123456789 .,-/"⟩)]

/-- Outcome dictionary of `_validate_field`: `valid`, an optional
`error` message and an optional `normalized` value (an `Option` models
presence of the dictionary key). -/
structure FieldValidationR where
  valid : Bool
  error : Option String
  normalized : Option String

/-- Letters in scope for Python's cased-character logic. -/
def pyIsAlphaChar (c : Char) : Bool :=
  ('a' ≤ c ∧ c ≤ 'z') ∨ ('A' ≤ c ∧ c ≤ 'Z') ∨
  c ∈ ['ă', 'â', 'î', 'ș', 'ț', 'Ă', 'Â', 'Î', 'Ș', 'Ț']

def pyUpperChar (c : Char) : Char :=
  if 'a' ≤ c ∧ c ≤ 'z' then Char.ofNat (c.toNat - 32)
  else if c = 'ă' then 'Ă' else if c = 'â' then 'Â' else if c = 'î' then 'Î'
  else if c = 'ș' then 'Ș' else if c = 'ț' then 'Ț' else c

/-- Python `str.title()`: the first letter of every run of letters is
uppercased, subsequent ones lowercased. -/
def pyTitleGo : Bool → List Char → List Char
  | _, [] => []
  | prevAlpha, c :: cs =>
    if pyIsAlphaChar c then
      (if prevAlpha then pyLowerChar c else pyUpperChar c) :: pyTitleGo true cs
    else c :: pyTitleGo false cs

def pyTitle (s : String) : String := ⟨pyTitleGo false s.data⟩

/-- Character class of the name regex
`^[a-zA-ZăîâșțĂÎÂȘȚ\s\-]+$` of `_validate_field`. -/
def nameCharAllowed (c : Char) : Bool :=
  ('a' ≤ c ∧ c ≤ 'z') ∨ ('A' ≤ c ∧ c ≤ 'Z') ∨
  c ∈ ['ă', 'î', 'â', 'ș', 'ț', 'Ă', 'Î', 'Â', 'Ș', 'Ț'] ∨ isPyWS c ∨ c = '-'

/-- `_validate_field` (romanian_id_processor.py 292–316): CNP validation
on modern card types (this re-raises whatever `validate_cnp` raises),
name length/character-class validation with title-cased normalisation,
address length validation; everything else is accepted as-is. -/
def validate_field (currentYear : Nat) (field_name field_value : String)
    (card_type : RomanianIDType) : PyResult FieldValidationR :=
  if field_name = "cnp" ∧ card_type ≠ .BI_OLD then
    match validate_cnp currentYear field_value with
    | .error e => .error e
    | .ok (is_valid, err) => .ok ⟨is_valid, err, some field_value⟩
  else if field_name = "nume" ∨ field_name = "prenume" then
    if field_value.data.length < 2 then .ok ⟨false, some "Name too short", none⟩
    else if !(field_value.data.all nameCharAllowed) then
      .ok ⟨false, some "Name contains invalid characters", none⟩
    else .ok ⟨true, none, some (pyTitle field_value)⟩
  else if field_name = "address" then
    if field_value.data.length < 5 then .ok ⟨false, some "Address too short", none⟩
    else .ok ⟨true, none, some field_value⟩
  else .ok ⟨true, none, some field_value⟩

/-- `_enhance_region_for_ocr` (romanian_id_processor.py 243–289),
reduced to the data that affects control flow: a crop below the minimum
usable size (width < 50 or height < 20) raises `ValueError`; otherwise
the region is upscaled by `max(3, 100 // min(w, h))`. -/
def enhance_region_for_ocr (w h : Nat) : PyResult (Nat × Nat) :=
  if w < 50 ∨ h < 20 then
    .error ("Region too small for OCR: " ++ toString w ++ "x" ++ toString h)
  else
    let scale_factor := max 3 (100 / min w h)
    .ok (w * scale_factor, h * scale_factor)

/-- The body of one iteration of the field loop of
`_extract_from_template` (romanian_id_processor.py 188–232): fractional
rectangle to pixels, crop, enhancement gate, recognition (abstracted as
an oracle returning the raw text and the per-token confidence list, and
which may itself raise), confidence averaging over positive entries,
field validation. -/
def processRegionField (currentYear : Nat) (card_type : RomanianIDType)
    (width height : Nat) (ocr : String → PyResult (String × List Int))
    (field : String × RegionSpec) : PyResult (String × ℚ × FieldValidationR) :=
  let x1 := (pyTrunc (field.2.x_start * width)).toNat
  let x2 := (pyTrunc (field.2.x_end * width)).toNat
  let y1 := (pyTrunc (field.2.y_start * height)).toNat
  let y2 := (pyTrunc (field.2.y_end * height)).toNat
  match enhance_region_for_ocr (x2 - x1) (y2 - y1) with
  | .error e => .error e
  | .ok _ =>
    match ocr field.1 with
    | .error e => .error e
    | .ok (raw_text, confList) =>
      let field_text := pyStrip raw_text
      let confidences := confList.filter (fun c => c > 0)
      let avg_confidence : ℚ :=
        if confidences.length = 0 then 0
        else (confidences.sum : ℚ) / (confidences.length : ℚ)
      match validate_field currentYear field.1 field_text card_type with
      | .error e => .error e
      | .ok v => .ok (field_text, avg_confidence, v)

/-- The result dictionary of `_extract_from_template`. -/
structure ExtractionResults where
  card_type : String
  extracted_fields : List (String × String)
  confidence_scores : List (String × ℚ)
  validation_results : List (String × FieldValidationR)
  overall_confidence : ℚ

/-- `_extract_from_template` (romanian_id_processor.py 188–241): every
field of the region map is processed; a per-field `try`/`except`
records empty text, zero confidence and `{"valid": False, "error": …}`
when that field's processing raises, and the loop continues.  The
overall confidence is the mean of the per-field confidences. -/
def extract_from_template (currentYear : Nat) (width height : Nat)
    (regions : List (String × RegionSpec)) (card_type : RomanianIDType)
    (ocr : String → PyResult (String × List Int)) : ExtractionResults :=
  let perField := regions.map (fun field =>
    match processRegionField currentYear card_type width height ocr field with
    | .ok (t, c, v) => (field.1, t, c, v)
    | .error e => (field.1, "", (0 : ℚ), (⟨false, some e, none⟩ : FieldValidationR)))
  let confidences := perField.map (fun r => r.2.2.1)
  { card_type := card_type.value
    extracted_fields := perField.map (fun r => (r.1, r.2.1))
    confidence_scores := perField.map (fun r => (r.1, r.2.2.1))
    validation_results := perField.map (fun r => (r.1, r.2.2.2))
    overall_confidence :=
      if confidences.length = 0 then 0
      else confidences.sum / (confidences.length : ℚ) }

/-! ## `app/services/romanian_document_templates.py` and
`_extract_structured_data` (enhanced_ocr.py 863–905) -/

structure DocumentField where
  field_name : String
  patterns : List String
  validation_func : Option String
  required : Bool

structure DocumentTemplate where
  template_id : String
  document_type : String
  language : String
  confidence_threshold : Nat
  identification_patterns : List String
  extraction_fields : List DocumentField
  post_processing_rules : List (String × Bool)

/-- `get_romanian_id_template` (romanian_document_templates.py 28–63). -/
def get_romanian_id_template : DocumentTemplate :=
  { template_id := "ro_identity_card"
    document_type := "romanian_id"
    language := "romanian"
    confidence_threshold := 70
    identification_patterns :=
      ["ROMANIA|ROMÂNIA|ROUMANIE",
       "CARTE DE IDENTITATE||D\x27IDENTITE",
       "IDENTITY CARD",
       "CNP[\\s:]*\\d{13}",
       "SERIA|SERIA\\s+[A-Z]{2}"]
    extraction_fields :=
      [⟨"nume", ["NUME[:\\s]+([A-ZĂÂÎȘȚ\\s]+)"], none, true⟩,
       ⟨"prenume", ["PRENUME[:\\s]+([A-ZĂÂÎȘȚ\\s]+)"], none, true⟩,
       ⟨"cnp", ["CNP[\\s:]*(\\d{13})"], some "validate_cnp", true⟩,
       ⟨"data_nasterii",
        ["(\\d{2}[\\.\\-/]\\d{2}[\\.\\-/]\\d{4})",
         "DATA NAȘTERII[:\\s]+(\\d{2}[\\.\\-/]\\d{2}[\\.\\-/]\\d{4})"], none, true⟩,
       ⟨"seria", ["SERIA\\s+([A-Z]{2})"], none, false⟩,
       ⟨"numar", ["NR[\\.\\s]*(\\d+)"], none, false⟩,
       ⟨"eliberata_de",
        ["ELIBERATĂ DE[:\\s]+([A-ZĂÂÎȘȚ\\s,]+)",
         "ISSUED BY[:\\s]+([A-ZĂÂÎȘȚ\\s,]+)"], none, false⟩]
    post_processing_rules :=
      [("normalize_names", true), ("validate_cnp_date_consistency", true),
       ("extract_gender_from_cnp", true)] }

/-- `get_lab_result_template` (romanian_document_templates.py 65–105). -/
def get_lab_result_template : DocumentTemplate :=
  { template_id := "ro_lab_results"
    document_type := "lab_result"
    language := "romanian"
    confidence_threshold := 65
    identification_patterns :=
      ["LABORATOR|ANALIZE|REZULTATE",
       "PACIENT|PATIENT",
       "HEMOGLOBINĂ|GLICEMIE|COLESTEROL",
       "NORMAL|PATOLOGIC|REFERINȚĂ",
       "mg/dL|g/dL|μL|mmol/L"]
    extraction_fields :=
      [⟨"nume_pacient",
        ["PACIENT[:\\s]+([A-ZĂÂÎȘȚ\\s]+)", "PATIENT[:\\s]+([A-ZĂÂÎȘȚ\\s]+)",
         "NUME[:\\s]+([A-ZĂÂÎȘȚ\\s]+)"], none, true⟩,
       ⟨"data_prelevare",
        ["DATA PRELEVĂRII?[:\\s]*(\\d{2}[\\.\\-/]\\d{2}[\\.\\-/]\\d{4})",
         "DATA ANALIZEI[:\\s]*(\\d{2}[\\.\\-/]\\d{2}[\\.\\-/]\\d{4})",
         "(\\d{2}[\\.\\-/]\\d{2}[\\.\\-/]\\d{4})"], none, true⟩,
       ⟨"laborator",
        ["LABORATOR[:\\s]+([A-ZĂÂÎȘȚ\\s\\.,]+)", "LAB[:\\s]+([A-ZĂÂÎȘȚ\\s\\.,]+)"],
        none, false⟩,
       ⟨"medic",
        ["DR[\\.\\s]+([A-ZĂÂÎȘȚ\\s]+)", "MEDIC[:\\s]+([A-ZĂÂÎȘȚ\\s]+)"], none, false⟩]
    post_processing_rules :=
      [("extract_test_results", true), ("identify_abnormal_values", true),
       ("map_romanian_medical_terms", true)] }

/-- `get_prescription_template` (romanian_document_templates.py 107–141). -/
def get_prescription_template : DocumentTemplate :=
  { template_id := "ro_prescription"
    document_type := "prescription"
    language := "romanian"
    confidence_threshold := 60
    identification_patterns :=
      ["REȚETĂ|PRESCRIPȚIE", "MEDICAMENT|TRATAMENT", "DOZA|ADMINISTRARE",
       "DR\\.|MEDIC", "PARACETAMOL|ASPIRIN|IBUPROFEN"]
    extraction_fields :=
      [⟨"nume_pacient",
        ["PENTRU[:\\s]+([A-ZĂÂÎȘȚ\\s]+)", "PACIENT[:\\s]+([A-ZĂÂÎȘȚ\\s]+)"],
        none, true⟩,
       ⟨"data_prescriere", ["DATA[:\\s]*(\\d{2}[\\.\\-/]\\d{2}[\\.\\-/]\\d{4})"],
        none, true⟩,
       ⟨"medic_prescriptor",
        ["DR[\\.\\s]+([A-ZĂÂÎȘȚ\\s]+)", "MEDIC[:\\s]+([A-ZĂÂÎȘȚ\\s]+)"], none, true⟩]
    post_processing_rules :=
      [("extract_medications", true), ("parse_dosage_instructions", true),
       ("identify_controlled_substances", true)] }

/-- `get_all_templates` (romanian_document_templates.py 143–149). -/
def get_all_templates : List DocumentTemplate :=
  [get_romanian_id_template, get_lab_result_template, get_prescription_template]

/-- Python values stored in the `structured_data` dictionary. -/
inductive PyValue where
  | pstr (s : String)
  | pbool (b : Bool)
  | pnone
  | plist (elems : List PyValue)

/-- First-match-wins pattern loop of `_extract_structured_data`: regex
matching is abstracted as an oracle `reMatch pattern text` returning
`group(1)` of the first match; the candidate is stripped. -/
def firstFieldMatch (reMatch : String → String → Option String)
    (patterns : List String) (text : String) : Option String :=
  match patterns with
  | [] => none
  | p :: ps =>
    match reMatch p text with
    | some g => some (pyStrip g)
    | none => firstFieldMatch reMatch ps text

/-- The contribution of one `ExtractionField` to `extracted_data` in
`_extract_structured_data` (enhanced_ocr.py 875–896): an empty or
missing candidate stores nothing; with a validator attached, only
`"validate_cnp"` is implemented — acceptance stores the plain key and
`<field>_valid = True`, rejection stores `<field>_error` and
`<field>_valid = False` and not the plain key, any other validator name
stores nothing; without a validator the candidate is stored directly.
`validate_cnp` may raise, which propagates out of the loop. -/
def fieldContribution (currentYear : Nat)
    (reMatch : String → String → Option String) (text : String)
    (field : DocumentField) : PyResult (List (String × PyValue)) :=
  match firstFieldMatch reMatch field.patterns text with
  | none => .ok []
  | some v =>
    if v = "" then .ok []
    else
      match field.validation_func with
      | some vf =>
        if vf = "validate_cnp" then
          match validate_cnp currentYear v with
          | .error e => .error e
          | .ok (is_valid, err) =>
            if is_valid then
              .ok [(field.field_name, .pstr v), (field.field_name ++ "_valid", .pbool true)]
            else
              .ok [(field.field_name ++ "_error",
                     match err with | some m => .pstr m | none => .pnone),
                   (field.field_name ++ "_valid", .pbool false)]
        else .ok []
      | none => .ok [(field.field_name, .pstr v)]

/-- The operative `_extract_structured_data` (enhanced_ocr.py 863–905).
For `template_id == "ro_identity_card"` the branch at lines 869–874
unconditionally evaluates `MultiTemplateIDProcessor()` as its first
statement (line 870), before the `hasattr` check; the module-level
importing of `MultiTemplateIDProcessor` is commented out (line 16) and
the operative definition has no local importing, so the name is undefined and
the statement raises `NameError` before the field loop can run.  For
the other templates the field loop runs; the lab-test and medication
extraction results appended for the lab and prescription templates are
regex-driven values abstracted as the `labValue`/`medValue` oracles. -/
def extract_structured_data (currentYear : Nat)
    (reMatch : String → String → Option String) (labValue medValue : PyValue)
    (templates : List DocumentTemplate) (text template_id : String) :
    PyResult (List (String × PyValue)) :=
  match templates.find? (fun t => t.template_id == template_id) with
  | none => .error "StopIteration"
  | some template =>
    if template_id = "ro_identity_card" then
      .error "NameError: name \x27MultiTemplateIDProcessor\x27 is not defined"
    else
      match template.extraction_fields.mapM (fieldContribution currentYear reMatch text) with
      | .error e => .error e
      | .ok parts =>
        let extracted_data := parts.flatten
        if template_id = "ro_lab_results" then
          .ok (extracted_data ++ [("test_results", labValue)])
        else if template_id = "ro_prescription" then
          .ok (extracted_data ++ [("medications", medValue)])
        else .ok extracted_data

/-! ## Helper lemmas -/

lemma length_succ_destruct {α : Type} (l : List α) (n : Nat)
    (h : l.length = n + 1) : ∃ x t, l = x :: t ∧ t.length = n := by
  cases l with
  | nil => exact absurd h (by simp)
  | cons x t => exact ⟨x, t, rfl, by simpa using h⟩

lemma length_eq_13_destruct {α : Type} (l : List α) (h : l.length = 13) :
    ∃ a0 a1 a2 a3 a4 a5 a6 a7 a8 a9 a10 a11 a12,
      l = [a0, a1, a2, a3, a4, a5, a6, a7, a8, a9, a10, a11, a12] := by
  obtain ⟨a0, l, rfl, h0⟩ := length_succ_destruct l 12 h
  obtain ⟨a1, l, rfl, h1⟩ := length_succ_destruct l 11 h0
  obtain ⟨a2, l, rfl, h2⟩ := length_succ_destruct l 10 h1
  obtain ⟨a3, l, rfl, h3⟩ := length_succ_destruct l 9 h2
  obtain ⟨a4, l, rfl, h4⟩ := length_succ_destruct l 8 h3
  obtain ⟨a5, l, rfl, h5⟩ := length_succ_destruct l 7 h4
  obtain ⟨a6, l, rfl, h6⟩ := length_succ_destruct l 6 h5
  obtain ⟨a7, l, rfl, h7⟩ := length_succ_destruct l 5 h6
  obtain ⟨a8, l, rfl, h8⟩ := length_succ_destruct l 4 h7
  obtain ⟨a9, l, rfl, h9⟩ := length_succ_destruct l 3 h8
  obtain ⟨a10, l, rfl, h10⟩ := length_succ_destruct l 2 h9
  obtain ⟨a11, l, rfl, h11⟩ := length_succ_destruct l 1 h10
  obtain ⟨a12, l, rfl, h12⟩ := length_succ_destruct l 0 h11
  cases l with
  | nil => exact ⟨a0, a1, a2, a3, a4, a5, a6, a7, a8, a9, a10, a11, a12, rfl⟩
  | cons b t => exact absurd h12 (by simp)

lemma pyInt_pair (a b : Char) :
    pyInt [a, b] = match decimalVal a, decimalVal b with
      | some x, some y => some (10 * x + y)
      | _, _ => none := by
  cases ha : decimalVal a <;> cases hb : decimalVal b <;>
    simp [pyInt, List.mapM, List.mapM.loop, ha, hb]

lemma pyInt_single (a : Char) : pyInt [a] = decimalVal a := by
  cases ha : decimalVal a <;>
    simp [pyInt, List.mapM, List.mapM.loop, ha]

lemma pyIsDigitChar_of_decimal {c : Char} {v : Nat} (h : decimalVal c = some v) :
    pyIsDigitChar c = true := by
  unfold decimalVal at h
  unfold pyIsDigitChar
  cases hk : charKind c <;> simp [hk] at h ⊢

lemma mapM_isSome {α β : Type} {f : α → Option β} :
    ∀ {l : List α} {ds : List β}, l.mapM f = some ds → ∀ a ∈ l, (f a).isSome := by
  intro l
  induction l with
  | nil => intro ds _ a ha; simp at ha
  | cons x xs ih =>
    intro ds h a ha
    rw [List.mapM_cons] at h
    cases hfx : f x
    case none => rw [hfx] at h; simp at h
    case some y =>
      rw [hfx] at h
      cases hxs : xs.mapM f
      case none => rw [hxs] at h; simp at h
      case some ys =>
        rcases List.mem_cons.mp ha with rfl | ha'
        · simp [hfx]
        · exact ih hxs a ha'

lemma cnpTryBlock_some_fst_false {cy : Nat} {l : List Char} {r : Bool × Option String}
    (h : cnpTryBlock cy l = .ok (some r)) : r.1 = false := by
  unfold cnpTryBlock at h
  repeat' split at h
  all_goals try simp_all
  all_goals try (split_ifs at h <;> try simp_all)
  all_goals exact h ▸ rfl

set_option maxHeartbeats 1000000 in
lemma validateCNPChars_true_iff (cy : Nat) (l : List Char) :
    validateCNPChars cy l = .ok (true, none) ↔ cnpSpecOkChars cy l = true := by
  by_cases hlen : l.length = 13
  case neg =>
    simp [validateCNPChars, cnpSpecOkChars, hlen]
  case pos =>
    obtain ⟨c0, c1, c2, c3, c4, c5, c6, c7, c8, c9, c10, c11, c12, rfl⟩ :=
      length_eq_13_destruct l hlen
    by_cases hall :
        ([c0,c1,c2,c3,c4,c5,c6,c7,c8,c9,c10,c11,c12].all isDecimal) = true
    case pos =>
      simp only [List.all_cons, List.all_nil, Bool.and_eq_true, and_true,
        isDecimal, Option.isSome_iff_exists] at hall
      obtain ⟨⟨v0, hv0⟩, ⟨v1, hv1⟩, ⟨v2, hv2⟩, ⟨v3, hv3⟩, ⟨v4, hv4⟩, ⟨v5, hv5⟩,
        ⟨v6, hv6⟩, ⟨v7, hv7⟩, ⟨v8, hv8⟩, ⟨v9, hv9⟩, ⟨v10, hv10⟩, ⟨v11, hv11⟩,
        ⟨v12, hv12⟩⟩ := hall
      have hdig : pyIsDigit [c0,c1,c2,c3,c4,c5,c6,c7,c8,c9,c10,c11,c12] = true := by
        simp [pyIsDigit, pyIsDigitChar_of_decimal, hv0, hv1, hv2, hv3, hv4, hv5,
          hv6, hv7, hv8, hv9, hv10, hv11, hv12]
      rcases hcen : cnpCentury v0 with _ | base
      case none =>
        simp only [validateCNPChars, cnpTryBlock, cnpSpecOkChars, cnpSpecChecksumChars,
          cnpDigitChars, hdig]
        simp only [List.drop_succ_cons, List.drop_zero, List.take_succ_cons,
          List.take_zero, pyInt_pair, pyInt_single, hv0, hv1, hv2, hv3, hv4, hv5, hv6]
        simp only [show (if v0 = 1 ∨ v0 = 2 then some 1900
          else if v0 = 3 ∨ v0 = 4 then some 1800
          else if v0 = 5 ∨ v0 = 6 then some 2000 else none) = cnpCentury v0 from rfl, hcen]
        simp [hv0, hcen]
      case some =>
        by_cases hdt : datetimeValid (base + (10 * v1 + v2)) (10 * v3 + v4) (10 * v5 + v6) = true
        case neg =>
          simp only [validateCNPChars, cnpTryBlock, cnpSpecOkChars, cnpSpecChecksumChars,
            cnpDigitChars, hdig]
          simp only [List.drop_succ_cons, List.drop_zero, List.take_succ_cons,
            List.take_zero, pyInt_pair, pyInt_single, hv0, hv1, hv2, hv3, hv4, hv5, hv6]
          simp only [show (if v0 = 1 ∨ v0 = 2 then some 1900
            else if v0 = 3 ∨ v0 = 4 then some 1800
            else if v0 = 5 ∨ v0 = 6 then some 2000 else none) = cnpCentury v0 from rfl, hcen]
          simp [hdt, hcen, hv0, hv1, hv2, hv3, hv4, hv5, hv6, hv7, hv8, hv9, hv10,
            hv11, hv12, isDecimal]
        case pos =>
          by_cases hyr : (base + (10 * v1 + v2) > cy ∨ base + (10 * v1 + v2) < 1800)
          case pos =>
            simp only [validateCNPChars, cnpTryBlock, cnpSpecOkChars, cnpSpecChecksumChars,
              cnpDigitChars, hdig]
            simp only [List.drop_succ_cons, List.drop_zero, List.take_succ_cons,
              List.take_zero, pyInt_pair, pyInt_single, hv0, hv1, hv2, hv3, hv4, hv5, hv6]
            simp only [show (if v0 = 1 ∨ v0 = 2 then some 1900
              else if v0 = 3 ∨ v0 = 4 then some 1800
              else if v0 = 5 ∨ v0 = 6 then some 2000 else none) = cnpCentury v0 from rfl, hcen]
            rcases hyr with hyr' | hyr'
            · have hle : (base + (10 * v1 + v2) ≤ cy) = False := by
                simp only [eq_iff_iff, iff_false]; omega
              simp [hdt, hcen, hle, hyr', hv0, hv1, hv2, hv3, hv4, hv5, hv6, hv7,
                hv8, hv9, hv10, hv11, hv12, isDecimal]
            · have hge : (1800 ≤ base + (10 * v1 + v2)) = False := by
                simp only [eq_iff_iff, iff_false]; omega
              simp [hdt, hcen, hge, hyr', hv0, hv1, hv2, hv3, hv4, hv5, hv6, hv7,
                hv8, hv9, hv10, hv11, hv12, isDecimal]
          case neg =>
            simp only [validateCNPChars, cnpTryBlock, cnpSpecOkChars, cnpSpecChecksumChars,
              cnpDigitChars, hdig]
            simp only [List.drop_succ_cons, List.drop_zero, List.take_succ_cons,
              List.take_zero, pyInt_pair, pyInt_single, hv0, hv1, hv2, hv3, hv4, hv5, hv6]
            simp only [show (if v0 = 1 ∨ v0 = 2 then some 1900
              else if v0 = 3 ∨ v0 = 4 then some 1800
              else if v0 = 5 ∨ v0 = 6 then some 2000 else none) = cnpCentury v0 from rfl, hcen]
            simp only [show List.range 12 = [0,1,2,3,4,5,6,7,8,9,10,11] from rfl]
            simp only [List.getD_cons_zero, List.getD_cons_succ]
            simp only [List.mapM, List.mapM.loop, hv0, hv1, hv2, hv3, hv4, hv5, hv6,
              hv7, hv8, hv9, hv10, hv11, hv12]
            have hyr2 : ¬(cy < base + (10 * v1 + v2) ∨ base + (10 * v1 + v2) < 1800) := by
              omega
            simp [hdt, hyr2, hcen, cnpDigitChars, cnpWeights, hv0, hv1, hv2, hv3,
              hv4, hv5, hv6, hv7, hv8, hv9, hv10, hv11, hv12, isDecimal]
            intro _
            omega
    case neg =>
      have hRHS : cnpSpecOkChars cy [c0,c1,c2,c3,c4,c5,c6,c7,c8,c9,c10,c11,c12] = false := by
        unfold cnpSpecOkChars
        simp only [Bool.and_eq_false_iff]
        left; right
        exact Bool.eq_false_iff.mpr hall
      rw [hRHS]
      simp only [Bool.false_eq_true, iff_false]
      intro h
      unfold validateCNPChars at h
      rw [if_neg (by simp)] at h
      cases hpd : pyIsDigit [c0,c1,c2,c3,c4,c5,c6,c7,c8,c9,c10,c11,c12]
      case false => simp [hpd] at h
      case true =>
        simp only [hpd, Bool.not_true, Bool.false_eq_true, if_false] at h
        rcases htb : cnpTryBlock cy [c0,c1,c2,c3,c4,c5,c6,c7,c8,c9,c10,c11,c12] with u | o
        case error => rw [htb] at h; simp at h
        case ok =>
          rcases o with _ | r
          case some =>
            rw [htb] at h
            have hr := cnpTryBlock_some_fst_false htb
            simp only [Except.ok.injEq] at h
            rw [h] at hr
            simp at hr
          case none =>
            rw [htb] at h
            rcases hm : (List.range 12).mapM
                (fun i => decimalVal (List.getD [c0,c1,c2,c3,c4,c5,c6,c7,c8,c9,c10,c11,c12] i ' ')) with _ | ds
            case none => rw [hm] at h; simp at h
            case some =>
              rw [hm] at h
              rcases hd12 : decimalVal (List.getD [c0,c1,c2,c3,c4,c5,c6,c7,c8,c9,c10,c11,c12] 12 ' ') with _ | w
              case none => rw [hd12] at h; simp at h
              case some =>
                have hd12' : decimalVal c12 = some w := hd12
                have hsome : ∀ i ∈ List.range 12,
                    (decimalVal (List.getD [c0,c1,c2,c3,c4,c5,c6,c7,c8,c9,c10,c11,c12] i ' ')).isSome :=
                  mapM_isSome hm
                have d0 := hsome 0 (by simp)
                have d1 := hsome 1 (by simp)
                have d2 := hsome 2 (by simp)
                have d3 := hsome 3 (by simp)
                have d4 := hsome 4 (by simp)
                have d5 := hsome 5 (by simp)
                have d6 := hsome 6 (by simp)
                have d7 := hsome 7 (by simp)
                have d8 := hsome 8 (by simp)
                have d9 := hsome 9 (by simp)
                have d10 := hsome 10 (by simp)
                have d11 := hsome 11 (by simp)
                simp only [List.getD_cons_zero, List.getD_cons_succ] at d0 d1 d2 d3 d4 d5 d6 d7 d8 d9 d10 d11
                exact absurd (by
                  simp [List.all_cons, isDecimal, d0, d1, d2, d3, d4, d5,
                    d6, d7, d8, d9, d10, d11, hd12']) hall


/-! ## Claim C1 -/

/-- C1 (amended: the code accepts any Unicode decimal digits, not only
ASCII digits; strings of digit-class characters that are not decimal
can raise instead of returning invalid): for every current year and
string, `validate_cnp` returns valid exactly when the string is 13
Unicode decimal digits whose first digit selects a century, whose date
digits form a real calendar date with year between 1800 and the current
year, and whose weighted checksum equals the control digit. -/
theorem validate_cnp_valid_iff_spec (currentYear : Nat) (cnp : String) :
    validate_cnp currentYear cnp = .ok (true, none) ↔
      cnpSpecOk currentYear cnp = true :=
  validateCNPChars_true_iff currentYear cnp.data

/-- C1 counterexample: a CNP written with Arabic-Indic decimal digits is
accepted as valid although it is not made of ASCII digits, refuting the
claim that validity holds only for strings of exactly 13 ASCII digits. -/
theorem validate_cnp_accepts_nonASCII_digits :
    validate_cnp 2026 "١٩٩٠١٠١١٢٣٤٥٠" = .ok (true, none) ∧
      ("١٩٩٠١٠١١٢٣٤٥٠" : String).data.all isASCIIDigit = false :=
  ⟨rfl, by decide⟩

/-! ## Claim C2 -/

/-- C2: for every string that `validate_cnp` marks valid,
`extract_birth_date_from_cnp` returns the date obtained from the
century rule (digit 1 selects 1900/1800/2000, YY/MM/DD from digits
2–7), that date is a real calendar date, and
`extract_gender_from_cnp` returns `"M"` exactly when the first digit is
1, 3 or 5, and always `"M"` or `"F"`. -/
theorem cnp_valid_extracts_consistent (currentYear : Nat) (cnp : String)
    (h : validate_cnp currentYear cnp = .ok (true, none)) :
    ∃ base,
      cnpCentury (cnpDigit cnp 0) = some base ∧
      datetimeValid (base + (10 * cnpDigit cnp 1 + cnpDigit cnp 2))
        (10 * cnpDigit cnp 3 + cnpDigit cnp 4)
        (10 * cnpDigit cnp 5 + cnpDigit cnp 6) = true ∧
      extract_birth_date_from_cnp currentYear cnp =
        .ok (some (pad4 (base + (10 * cnpDigit cnp 1 + cnpDigit cnp 2)) ++ "-" ++
          pad2 (10 * cnpDigit cnp 3 + cnpDigit cnp 4) ++ "-" ++
          pad2 (10 * cnpDigit cnp 5 + cnpDigit cnp 6))) ∧
      extract_gender_from_cnp currentYear cnp =
        .ok (some (if cnpDigit cnp 0 = 1 ∨ cnpDigit cnp 0 = 3 ∨ cnpDigit cnp 0 = 5
          then "M" else "F")) ∧
      (extract_gender_from_cnp currentYear cnp = .ok (some "M") ∨
       extract_gender_from_cnp currentYear cnp = .ok (some "F")) := by
  have hspec := (validateCNPChars_true_iff currentYear cnp.data).mp h
  unfold cnpSpecOkChars at hspec
  simp only [Bool.and_eq_true, decide_eq_true_eq] at hspec
  obtain ⟨⟨hlen, hall⟩, hmatch⟩ := hspec
  obtain ⟨c0, c1, c2, c3, c4, c5, c6, c7, c8, c9, c10, c11, c12, hl⟩ :=
    length_eq_13_destruct cnp.data hlen
  rw [hl] at hall
  simp only [List.all_cons, List.all_nil, Bool.and_eq_true, and_true,
    isDecimal, Option.isSome_iff_exists] at hall
  obtain ⟨⟨v0, hv0⟩, ⟨v1, hv1⟩, ⟨v2, hv2⟩, ⟨v3, hv3⟩, ⟨v4, hv4⟩, ⟨v5, hv5⟩,
    ⟨v6, hv6⟩, _, _, _, _, _, _⟩ := hall
  have hd : ∀ i, cnpDigit cnp i =
      cnpDigitChars [c0,c1,c2,c3,c4,c5,c6,c7,c8,c9,c10,c11,c12] i := by
    intro i; unfold cnpDigit; rw [hl]
  rcases hcen : cnpCentury (cnpDigit cnp 0) with _ | base
  case none =>
    rw [hd 0] at hcen
    simp only [cnpDigitChars, List.getD_cons_zero, hv0, Option.getD_some] at hcen
    rw [hl] at hmatch
    simp only [cnpDigitChars, List.getD_cons_zero, hv0, Option.getD_some, hcen] at hmatch
    exact absurd hmatch (by simp)
  case some =>
    refine ⟨base, rfl, ?_, ?_, ?_, ?_⟩
    · rw [hd 0] at hcen
      rw [hl] at hmatch
      simp only [cnpDigitChars, List.getD_cons_zero, List.getD_cons_succ,
        hv0, hv1, hv2, hv3, hv4, hv5, hv6, Option.getD_some] at hmatch hcen
      rw [hcen] at hmatch
      simp only [Bool.and_eq_true, decide_eq_true_eq] at hmatch
      simp only [hd, cnpDigitChars, List.getD_cons_zero, List.getD_cons_succ,
        hv0, hv1, hv2, hv3, hv4, hv5, hv6, Option.getD_some]
      exact hmatch.1.1.1
    · unfold extract_birth_date_from_cnp
      rw [h, hl]
      simp only [List.drop_succ_cons, List.drop_zero, List.take_succ_cons,
        List.take_zero, pyInt_pair, pyInt_single, hv0, hv1, hv2, hv3, hv4, hv5, hv6]
      rw [hd 0] at hcen
      simp only [cnpDigitChars, List.getD_cons_zero, hv0, Option.getD_some] at hcen
      simp only [show (if v0 = 1 ∨ v0 = 2 then some 1900
        else if v0 = 3 ∨ v0 = 4 then some 1800
        else if v0 = 5 ∨ v0 = 6 then some 2000 else none) = cnpCentury v0 from rfl, hcen]
      simp only [hd, cnpDigitChars, List.getD_cons_zero, List.getD_cons_succ,
        hv0, hv1, hv2, hv3, hv4, hv5, hv6, Option.getD_some]
    · unfold extract_gender_from_cnp
      rw [h, hl]
      simp only [List.head?_cons, hv0]
      simp only [hd, cnpDigitChars, List.getD_cons_zero, hv0, Option.getD_some]
    · by_cases hm : cnpDigit cnp 0 = 1 ∨ cnpDigit cnp 0 = 3 ∨ cnpDigit cnp 0 = 5
      · left
        unfold extract_gender_from_cnp
        rw [h, hl]
        simp only [List.head?_cons, hv0]
        rw [hd 0] at hm
        simp only [cnpDigitChars, List.getD_cons_zero, hv0, Option.getD_some] at hm
        simp [hm]
      · right
        unfold extract_gender_from_cnp
        rw [h, hl]
        simp only [List.head?_cons, hv0]
        rw [hd 0] at hm
        simp only [cnpDigitChars, List.getD_cons_zero, hv0, Option.getD_some] at hm
        simp [hm]

/-- C2 witness at the valid CNP `1990101123450`. -/
theorem cnp_valid_extracts_consistent_witness :
    validate_cnp 2026 "1990101123450" = .ok (true, none) ∧
    ∃ base,
      cnpCentury (cnpDigit "1990101123450" 0) = some base ∧
      datetimeValid (base + (10 * cnpDigit "1990101123450" 1 + cnpDigit "1990101123450" 2))
        (10 * cnpDigit "1990101123450" 3 + cnpDigit "1990101123450" 4)
        (10 * cnpDigit "1990101123450" 5 + cnpDigit "1990101123450" 6) = true ∧
      extract_birth_date_from_cnp 2026 "1990101123450" =
        .ok (some (pad4 (base + (10 * cnpDigit "1990101123450" 1 + cnpDigit "1990101123450" 2)) ++ "-" ++
          pad2 (10 * cnpDigit "1990101123450" 3 + cnpDigit "1990101123450" 4) ++ "-" ++
          pad2 (10 * cnpDigit "1990101123450" 5 + cnpDigit "1990101123450" 6))) ∧
      extract_gender_from_cnp 2026 "1990101123450" =
        .ok (some (if cnpDigit "1990101123450" 0 = 1 ∨ cnpDigit "1990101123450" 0 = 3 ∨
            cnpDigit "1990101123450" 0 = 5 then "M" else "F")) ∧
      (extract_gender_from_cnp 2026 "1990101123450" = .ok (some "M") ∨
       extract_gender_from_cnp 2026 "1990101123450" = .ok (some "F")) :=
  ⟨rfl, cnp_valid_extracts_consistent 2026 "1990101123450" rfl⟩

/-! ## Claim C10 -/

/-- C10: for every string that `validate_cnp` rejects (returns
`(False, reason)`), both derivation functions return `None` without
raising. -/
theorem extract_none_on_rejected_cnp (currentYear : Nat) (cnp : String)
    (r : Option String) (h : validate_cnp currentYear cnp = .ok (false, r)) :
    extract_birth_date_from_cnp currentYear cnp = .ok none ∧
      extract_gender_from_cnp currentYear cnp = .ok none := by
  unfold extract_birth_date_from_cnp extract_gender_from_cnp
  rw [h]
  exact ⟨rfl, rfl⟩

/-- C10 witness at the rejected string `"123"`. -/
theorem extract_none_on_rejected_cnp_witness :
    validate_cnp 2026 "123" = .ok (false, some "CNP must be exactly 13 digits") ∧
      extract_birth_date_from_cnp 2026 "123" = .ok none ∧
      extract_gender_from_cnp 2026 "123" = .ok none :=
  ⟨rfl, extract_none_on_rejected_cnp 2026 "123" _ rfl⟩

/-! ## Claim C9 -/

lemma charKind_ascii {c : Char} (h : c.toNat < 128) :
    charKind c = .decimal (c.toNat - 48) ∨ charKind c = .nonDigit := by
  unfold charKind
  split_ifs with h1 h2 h3
  · left; rfl
  · exfalso; omega
  · exfalso; omega
  · right; rfl

lemma decimal_of_digitClass_ascii {c : Char} (hascii : c.toNat < 128)
    (hdig : pyIsDigitChar c = true) : (decimalVal c).isSome := by
  unfold pyIsDigitChar at hdig
  unfold decimalVal
  rcases charKind_ascii hascii with hk | hk
  · rw [hk]; rfl
  · rw [hk] at hdig; simp at hdig

lemma mapM_some_of_forall {α β : Type} {f : α → Option β} :
    ∀ {l : List α}, (∀ a ∈ l, (f a).isSome) → (l.mapM f).isSome := by
  intro l
  induction l with
  | nil => intro _; rfl
  | cons x xs ih =>
    intro hall
    rw [List.mapM_cons]
    have hx := hall x (by simp)
    rcases Option.isSome_iff_exists.mp hx with ⟨y, hy⟩
    have hxs := ih (fun a ha => hall a (by simp [ha]))
    rcases Option.isSome_iff_exists.mp hxs with ⟨ys, hys⟩
    have hys' : List.mapM.loop f xs [] = some ys := hys
    simp [List.mapM_cons, List.mapM, hy, hys, hys']

lemma cnpTryBlock_some_shape {cy : Nat} {l : List Char} {r : Bool × Option String}
    (h : cnpTryBlock cy l = .ok (some r)) :
    r = (false, some "Invalid CNP first digit") ∨
      r = (false, some "Invalid birth year in CNP") := by
  unfold cnpTryBlock at h
  repeat' split at h
  all_goals try simp_all
  all_goals try (split_ifs at h <;> try simp_all)

/-- C9 counterexample: `validate_cnp` is not total — on a 13-character
digit-class string whose tail holds superscript-two characters (which
`str.isdigit` accepts but `int()` rejects) the checksum section raises
an uncaught `ValueError` instead of returning a pair. -/
theorem validate_cnp_raises_on_superscript :
    validate_cnp 2026 "1990101²²²²²1" =
      .error "ValueError: invalid literal for int() with base 10" := rfl

/-- C9 (amended: totality holds for ASCII strings; digit-class
non-decimal characters past the date section raise `ValueError`): for
every ASCII string, `validate_cnp` returns a `(bool, reason)` pair; a
rejection carries a non-empty reason and acceptance carries `None`. -/
theorem validate_cnp_total_on_ascii (currentYear : Nat) (cnp : String)
    (hascii : ∀ c ∈ cnp.data, c.toNat < 128) :
    ∃ b r, validate_cnp currentYear cnp = .ok (b, r) ∧
      (b = false → ∃ msg, r = some msg ∧ msg ≠ "") ∧
      (b = true → r = none) := by
  unfold validate_cnp validateCNPChars
  split
  · exact ⟨false, _, rfl, fun _ => ⟨_, rfl, by decide⟩, by simp⟩
  case isFalse hlen =>
    split
    · exact ⟨false, _, rfl, fun _ => ⟨_, rfl, by decide⟩, by simp⟩
    case isFalse hdig =>
      have hlen13 : cnp.data.length = 13 := by
        rcases not_or.mp hlen with ⟨_, h2⟩
        omega
      have hdig' : pyIsDigit cnp.data = true := by simpa using hdig
      have hdecs : ∀ c ∈ cnp.data, (decimalVal c).isSome := by
        intro c hc
        have := (List.all_eq_true.mp (Bool.and_eq_true_iff.mp hdig').2) c hc
        exact decimal_of_digitClass_ascii (hascii c hc) this
      obtain ⟨c0, c1, c2, c3, c4, c5, c6, c7, c8, c9, c10, c11, c12, hl⟩ :=
        length_eq_13_destruct cnp.data hlen13
      obtain ⟨v0, hv0⟩ := Option.isSome_iff_exists.mp (hdecs c0 (by rw [hl]; simp))
      obtain ⟨v1, hv1⟩ := Option.isSome_iff_exists.mp (hdecs c1 (by rw [hl]; simp))
      obtain ⟨v2, hv2⟩ := Option.isSome_iff_exists.mp (hdecs c2 (by rw [hl]; simp))
      obtain ⟨v3, hv3⟩ := Option.isSome_iff_exists.mp (hdecs c3 (by rw [hl]; simp))
      obtain ⟨v4, hv4⟩ := Option.isSome_iff_exists.mp (hdecs c4 (by rw [hl]; simp))
      obtain ⟨v5, hv5⟩ := Option.isSome_iff_exists.mp (hdecs c5 (by rw [hl]; simp))
      obtain ⟨v6, hv6⟩ := Option.isSome_iff_exists.mp (hdecs c6 (by rw [hl]; simp))
      obtain ⟨v7, hv7⟩ := Option.isSome_iff_exists.mp (hdecs c7 (by rw [hl]; simp))
      obtain ⟨v8, hv8⟩ := Option.isSome_iff_exists.mp (hdecs c8 (by rw [hl]; simp))
      obtain ⟨v9, hv9⟩ := Option.isSome_iff_exists.mp (hdecs c9 (by rw [hl]; simp))
      obtain ⟨v10, hv10⟩ := Option.isSome_iff_exists.mp (hdecs c10 (by rw [hl]; simp))
      obtain ⟨v11, hv11⟩ := Option.isSome_iff_exists.mp (hdecs c11 (by rw [hl]; simp))
      obtain ⟨v12, hv12⟩ := Option.isSome_iff_exists.mp (hdecs c12 (by rw [hl]; simp))
      rw [hl]
      have hmap : (List.range 12).mapM
          (fun i => decimalVal (List.getD [c0,c1,c2,c3,c4,c5,c6,c7,c8,c9,c10,c11,c12] i ' ')) =
          some [v0,v1,v2,v3,v4,v5,v6,v7,v8,v9,v10,v11] := by
        simp [show List.range 12 = [0,1,2,3,4,5,6,7,8,9,10,11] from rfl,
          List.mapM, List.mapM.loop, hv0, hv1, hv2, hv3, hv4, hv5, hv6, hv7, hv8,
          hv9, hv10, hv11]
      rcases htb : cnpTryBlock currentYear [c0,c1,c2,c3,c4,c5,c6,c7,c8,c9,c10,c11,c12] with u | o
      case error =>
        exact ⟨false, _, rfl, fun _ => ⟨_, rfl, by decide⟩, by simp⟩
      case ok =>
        rcases o with _ | r
        case some =>
          rcases cnpTryBlock_some_shape htb with hr | hr <;> rw [hr] <;>
            exact ⟨false, _, rfl, fun _ => ⟨_, rfl, by decide⟩, by simp⟩
        case none =>
          simp only [hmap, List.getD_cons_zero, List.getD_cons_succ, hv12]
          split_ifs
          · exact ⟨false, _, rfl, fun _ => ⟨_, rfl, by decide⟩, by simp⟩
          · exact ⟨true, none, rfl, by simp, fun _ => rfl⟩
          · exact ⟨false, _, rfl, fun _ => ⟨_, rfl, by decide⟩, by simp⟩
          · exact ⟨true, none, rfl, by simp, fun _ => rfl⟩

/-- C9 witness: the ASCII string `"abc"` yields a rejection pair with a
non-empty reason. -/
theorem validate_cnp_total_on_ascii_witness :
    (∀ c ∈ ("abc" : String).data, c.toNat < 128) ∧
      ∃ b r, validate_cnp 2026 "abc" = .ok (b, r) ∧
        (b = false → ∃ msg, r = some msg ∧ msg ≠ "") ∧
        (b = true → r = none) :=
  ⟨by decide, validate_cnp_total_on_ascii 2026 "abc" (by decide)⟩

/-! ## Claim C3 -/

set_option maxRecDepth 4000 in
/-- C3: the claim ("never a success built from placeholder content; a
best score below 20 or best length below 10 is reported as an OCR
failure") is contradicted by the code, which returns the hardcoded
demonstration lab report of `get_mock_ocr_text` as the recognized text:
when every strategy raises, and likewise when the surviving text is too
short or scores below 20, `extract_text_from_image` returns the mock
text — a non-empty fabricated lab report — instead of an error. -/
theorem extract_text_returns_mock_on_failure :
    extract_text_from_image [.error "TesseractError", .error "TesseractError",
        .error "TesseractError"] = get_mock_ocr_text ∧
      extract_text_from_image [.ok "x", .ok "x", .ok "x"] = get_mock_ocr_text ∧
      get_mock_ocr_text ≠ "" ∧
      containsSub get_mock_ocr_text "RAPORT DE LABORATOR MEDICAL" = true := by
  refine ⟨rfl, rfl, by decide, rfl⟩

/-! ## Claim C4 -/

lemma pyTrunc_mono {a b : ℚ} (h : a ≤ b) : pyTrunc a ≤ pyTrunc b := by
  unfold pyTrunc
  split_ifs with ha hb hb2
  · exact Int.floor_le_floor h
  · exact absurd (le_trans ha h) hb
  · have h1 : ⌈a⌉ ≤ (0 : ℤ) := Int.ceil_le.mpr (by exact_mod_cast le_of_not_le ha)
    have h2 : (0 : ℤ) ≤ ⌊b⌋ := Int.floor_nonneg.mpr hb2
    omega
  · exact Int.ceil_le_ceil h

lemma pyTrunc_nonneg {a : ℚ} (h : 0 ≤ a) : 0 ≤ pyTrunc a := by
  unfold pyTrunc
  rw [if_pos h]
  exact Int.floor_nonneg.mpr h

/-- The claimed aggregation formula for `_calculate_final_confidence`. -/
def confidenceFormula (ocr : ℚ) (template : ℚ) (fields terms : Nat) : Int :=
  max 0 (min 100 (pyTrunc (ocr + min (template * (3/10)) 20 +
    min ((fields : ℚ) * 2) 15 + min ((terms : ℚ) * 3) 10)))

/-- Bonus part of `calculate_final_confidence`, for reuse in the
monotonicity proof. -/
lemma calculate_final_confidence_eq (ocr_confidence : Int) (c : ℚ)
    (field_count term_count : Nat) :
    calculate_final_confidence ocr_confidence (some c) field_count term_count =
      min (pyTrunc ((ocr_confidence : ℚ) + min (c * (3/10)) 20 +
        min ((field_count : ℚ) * 2) 15 + min ((term_count : ℚ) * 3) 10)) 100 := by
  unfold calculate_final_confidence
  rcases Nat.eq_zero_or_pos field_count with hf | hf <;>
    rcases Nat.eq_zero_or_pos term_count with ht | ht <;>
      simp [hf, ht, Nat.pos_iff_ne_zero.mp, min_def]

/-- C4: `_calculate_final_confidence` computes
`ocr + min(template × 0.3, 20) + min(fields × 2, 15) + min(terms × 3, 10)`,
truncated to an integer and clamped to [0, 100]; for non-negative
inputs the result lies in [0, 100] and the function is monotone
non-decreasing in each input. -/
theorem calculate_final_confidence_props (ocr ocr' : Int) (c c' : ℚ)
    (f f' t t' : Nat) (hocr : 0 ≤ ocr) (hc : 0 ≤ c) (hocr' : ocr ≤ ocr')
    (hcc : c ≤ c') (hff : f ≤ f') (htt : t ≤ t') :
    calculate_final_confidence ocr (some c) f t = confidenceFormula (ocr : ℚ) c f t ∧
    0 ≤ calculate_final_confidence ocr (some c) f t ∧
    calculate_final_confidence ocr (some c) f t ≤ 100 ∧
    calculate_final_confidence ocr (some c) f t ≤
      calculate_final_confidence ocr' (some c') f' t' := by
  have h1 : (0 : ℚ) ≤ min (c * (3/10)) 20 := le_min (by positivity) (by norm_num)
  have h2 : (0 : ℚ) ≤ min ((f : ℚ) * 2) 15 := le_min (by positivity) (by norm_num)
  have h3 : (0 : ℚ) ≤ min ((t : ℚ) * 3) 10 := le_min (by positivity) (by norm_num)
  have h0 : (0 : ℚ) ≤ (ocr : ℚ) := by exact_mod_cast hocr
  have hbase : (0 : ℚ) ≤ (ocr : ℚ) + min (c * (3/10)) 20 +
      min ((f : ℚ) * 2) 15 + min ((t : ℚ) * 3) 10 := by linarith
  have htr := pyTrunc_nonneg hbase
  refine ⟨?_, ?_, ?_, ?_⟩
  · rw [calculate_final_confidence_eq, confidenceFormula, min_comm]
    rw [max_eq_right (le_min (by norm_num) htr)]
  · rw [calculate_final_confidence_eq]
    exact le_min htr (by norm_num)
  · rw [calculate_final_confidence_eq]
    exact min_le_right _ _
  · rw [calculate_final_confidence_eq, calculate_final_confidence_eq]
    refine min_le_min (pyTrunc_mono ?_) le_rfl
    have hocrq : (ocr : ℚ) ≤ (ocr' : ℚ) := by exact_mod_cast hocr'
    have hfq : (f : ℚ) ≤ (f' : ℚ) := by exact_mod_cast hff
    have htq : (t : ℚ) ≤ (t' : ℚ) := by exact_mod_cast htt
    gcongr

/-- C4 witness at concrete inputs 50/60, 50/60, 3/4, 1/2. -/
theorem calculate_final_confidence_props_witness :
    ((0 : Int) ≤ 50 ∧ (0 : ℚ) ≤ 50 ∧ (50 : Int) ≤ 60 ∧ (50 : ℚ) ≤ 60 ∧
      (3 : Nat) ≤ 4 ∧ (1 : Nat) ≤ 2) ∧
    (calculate_final_confidence 50 (some 50) 3 1 = confidenceFormula 50 50 3 1 ∧
     0 ≤ calculate_final_confidence 50 (some 50) 3 1 ∧
     calculate_final_confidence 50 (some 50) 3 1 ≤ 100 ∧
     calculate_final_confidence 50 (some 50) 3 1 ≤
       calculate_final_confidence 60 (some 60) 4 2) :=
  ⟨⟨by norm_num, by norm_num, by norm_num, by norm_num, by norm_num, by norm_num⟩,
   calculate_final_confidence_props 50 60 50 60 3 4 1 2 (by norm_num) (by norm_num)
     (by norm_num) (by norm_num) (by norm_num) (by norm_num)⟩

/-! ## Layout classifier lemmas -/

lemma pyTruncMul310 (w : Nat) : (pyTrunc ((w : ℚ) * (3/10))).toNat = 3 * w / 10 := by
  have h0 : (0 : ℚ) ≤ (w : ℚ) * (3/10) := by positivity
  unfold pyTrunc
  rw [if_pos h0]
  have he : ((w : ℚ) * (3/10)) = ((3 * w : ℕ) : ℚ) / ((10 : ℕ) : ℚ) := by
    push_cast; ring
  rw [he, Int.floor_toNat, Nat.floor_div_nat, Nat.floor_natCast]

lemma edgeSq4_cast (px : Nat → Nat → Int) (h w r c : Nat) :
    (edgeSq4 px h w r c : ℚ) = 4 * edgeSq px h w r c := by
  unfold edgeSq4 edgeSq grad2Row grad2Col gradRow gradCol
  split_ifs <;> push_cast <;> ring

lemma edgeSq_gt_iff (px : Nat → Nat → Int) (h w r c : Nat) (t : Int) :
    ((t : ℚ) < edgeSq px h w r c) ↔ 4 * t < edgeSq4 px h w r c := by
  have h4 := edgeSq4_cast px h w r c
  constructor
  · intro hlt
    have hq : ((4 * t : Int) : ℚ) < (edgeSq4 px h w r c : ℚ) := by
      rw [h4]; push_cast; linarith
    exact_mod_cast hq
  · intro hlt
    have hq : ((4 * t : Int) : ℚ) < (edgeSq4 px h w r c : ℚ) := by exact_mod_cast hlt
    rw [h4] at hq
    push_cast at hq
    linarith

lemma countPixels_congr {h w : Nat} {p q : Nat → Nat → Bool}
    (hpq : ∀ r c, p r c = q r c) : countPixels h w p = countPixels h w q := by
  have : p = q := funext fun r => funext fun c => hpq r c
  rw [this]

lemma nat_ratio_gt_iff (n s k : ℕ) (hs : 0 < s) (hk : 0 < (k : ℚ)) :
    ((n : ℚ) / (s : ℚ) > 1 / (k : ℚ)) ↔ s < k * n := by
  rw [gt_iff_lt, div_lt_div_iff₀ hk (by exact_mod_cast hs), one_mul]
  constructor
  · intro hlt
    have hq : ((s : ℕ) : ℚ) < ((k * n : ℕ) : ℚ) := by push_cast; linarith
    exact_mod_cast hq
  · intro hlt
    have hq : ((s : ℕ) : ℚ) < ((k * n : ℕ) : ℚ) := by exact_mod_cast hlt
    push_cast at hq
    linarith

lemma detect_photo_region_eq (img : GrayImage) :
    detect_photo_region img = detect_photo_region_int img := by
  unfold detect_photo_region detect_photo_region_int
  rw [pyTruncMul310]
  cases hg : npGradientDefined img.height (3 * img.width / 10)
  case false => simp [hg]
  case true =>
    simp only [hg, Bool.not_true, Bool.false_eq_true, if_false]
    have h2 : 2 ≤ img.height ∧ 2 ≤ 3 * img.width / 10 := by
      unfold npGradientDefined at hg
      simpa using hg
    have hpos : 0 < img.height * (3 * img.width / 10) :=
      Nat.mul_pos (by omega) (by omega)
    have hc : (countPixels img.height (3 * img.width / 10)
        (fun r c => decide (edgeSq img.pixel img.height (3 * img.width / 10) r c > 900))) =
        countPixels img.height (3 * img.width / 10)
        (fun r c => decide (3600 < edgeSq4 img.pixel img.height (3 * img.width / 10) r c)) := by
      refine countPixels_congr (fun r c => decide_eq_decide.mpr ?_)
      have hi := edgeSq_gt_iff img.pixel img.height (3 * img.width / 10) r c 900
      norm_num at hi
      rw [gt_iff_lt]
      exact hi
    congr 1
    congr 1
    · exact decide_eq_decide.mpr (nat_ratio_gt_iff _ _ 10 hpos (by norm_num))
    · rw [hc]
      exact decide_eq_decide.mpr (nat_ratio_gt_iff _ _ 100 hpos (by norm_num))

lemma row_ratio_gt_iff (cnt w : ℕ) :
    ((cnt : ℚ) > (w : ℚ) * (1/10)) ↔ w < 10 * cnt := by
  rw [gt_iff_lt]
  constructor
  · intro hlt
    have hq : ((w : ℕ) : ℚ) < ((10 * cnt : ℕ) : ℚ) := by push_cast; linarith
    exact_mod_cast hq
  · intro hlt
    have hq : ((w : ℕ) : ℚ) < ((10 * cnt : ℕ) : ℚ) := by exact_mod_cast hlt
    push_cast at hq
    linarith

lemma detect_structured_text_blocks_eq (img : GrayImage) :
    detect_structured_text_blocks img = detect_structured_text_blocks_int img := by
  unfold detect_structured_text_blocks detect_structured_text_blocks_int
  cases hg : npGradientDefined img.height img.width
  case false => simp [hg]
  case true =>
    simp only [hg, Bool.not_true, Bool.false_eq_true, if_false]
    have hrows : ((List.range img.height).filter (fun r =>
        decide ((((List.range img.width).filter (fun c =>
          decide (edgeSq img.pixel img.height img.width r c > 400))).length : ℚ) >
            (img.width : ℚ) * (1/10)))) =
        (List.range img.height).filter (fun r =>
          decide (img.width < 10 * ((List.range img.width).filter (fun c =>
            decide (1600 < edgeSq4 img.pixel img.height img.width r c))).length)) := by
      refine List.filter_congr (fun r _ => ?_)
      have hcol : ((List.range img.width).filter (fun c =>
          decide (edgeSq img.pixel img.height img.width r c > 400))) =
          (List.range img.width).filter (fun c =>
            decide (1600 < edgeSq4 img.pixel img.height img.width r c)) := by
        refine List.filter_congr (fun c _ => decide_eq_decide.mpr ?_)
        have hi := edgeSq_gt_iff img.pixel img.height img.width r c 400
        norm_num at hi
        rw [gt_iff_lt]
        exact hi
      rw [hcol, decide_eq_decide.mpr (row_ratio_gt_iff _ _)]
    rw [hrows]

lemma detect_document_layout_eq (img : GrayImage) :
    detect_document_layout img = detect_document_layout_int img := by
  unfold detect_document_layout detect_document_layout_int
  by_cases hz : img.height = 0
  case pos => simp [hz]
  case neg =>
    simp only [hz, if_false]
    rw [detect_photo_region_eq]
    cases hp : detect_photo_region_int img
    case error => rfl
    case ok photo =>
      rw [detect_structured_text_blocks_eq]
      cases hs : detect_structured_text_blocks_int img
      case error => rfl
      case ok structured =>
        unfold detect_official_document_colors
        have hcard : decide ((13 : ℚ)/10 < (img.width : ℚ) / (img.height : ℚ) ∧
            (img.width : ℚ) / (img.height : ℚ) < (9 : ℚ)/5) =
            decide (13 * img.height < 10 * img.width ∧ 5 * img.width < 9 * img.height) := by
          apply decide_eq_decide.mpr
          have hh : (0 : ℚ) < (img.height : ℚ) := by
            have := Nat.pos_of_ne_zero hz
            exact_mod_cast this
          rw [div_lt_div_iff₀ (by norm_num) hh, div_lt_div_iff₀ hh (by norm_num)]
          constructor
          · rintro ⟨h1, h2⟩
            refine ⟨?_, ?_⟩
            · have hq : ((13 * img.height : ℕ) : ℚ) < ((10 * img.width : ℕ) : ℚ) := by
                push_cast; linarith
              exact_mod_cast hq
            · have hq : ((5 * img.width : ℕ) : ℚ) < ((9 * img.height : ℕ) : ℚ) := by
                push_cast; linarith
              exact_mod_cast hq
          · rintro ⟨h1, h2⟩
            have h1q : ((13 * img.height : ℕ) : ℚ) < ((10 * img.width : ℕ) : ℚ) := by
              exact_mod_cast h1
            have h2q : ((5 * img.width : ℕ) : ℚ) < ((9 * img.height : ℕ) : ℚ) := by
              exact_mod_cast h2
            push_cast at h1q h2q
            constructor <;> linarith
        rw [hcard]
        simp

/-! ## Claim C5 -/

/-- C5 (amended: the operative classifier's card-shape heuristic is
`1.3 < aspect < 1.8`, not `< 1.9`): the layout classifier decides the
identity-card layout exactly when the photo heuristic, the card-shape
bound and the structured-text heuristic all hold; in particular the
16 × 10 synthetic image (aspect ratio 1.6, dark left quarter, ≥ 4
high-edge-density rows) classifies as an identity card. -/
theorem detect_layout_id_iff :
    (∀ img : GrayImage,
      detect_document_layout img = .ok "romanian_id" ↔
        (detect_photo_region img = .ok true ∧
         ((13 : ℚ)/10 < (img.width : ℚ) / (img.height : ℚ) ∧
          (img.width : ℚ) / (img.height : ℚ) < (9 : ℚ)/5) ∧
         detect_structured_text_blocks img = .ok true)) ∧
    detect_document_layout syntheticIDImage = .ok "romanian_id" := by
  constructor
  · intro img
    unfold detect_document_layout
    by_cases hz : img.height = 0
    case pos =>
      have hp : detect_photo_region img =
          .error "ValueError: Shape of array too small to calculate a numerical gradient" := by
        unfold detect_photo_region
        have hng : npGradientDefined img.height
            ((pyTrunc ((img.width : ℚ) * (3/10))).toNat) = false := by
          unfold npGradientDefined
          simp [hz]
        simp [hng]
      simp [hz, hp]
    case neg =>
      simp only [hz, if_false]
      cases hp : detect_photo_region img
      case error e => simp [hp]
      case ok photo =>
        cases hs : detect_structured_text_blocks img
        case error e => simp [hp, hs]
        case ok str =>
          unfold detect_official_document_colors
          simp only [hp, hs]
          cases photo <;> cases str <;>
            simp [Bool.and_eq_true, decide_eq_true_eq, and_assoc]
  · rw [detect_document_layout_eq]
    rfl

/-- C5 counterexample: a 37 × 20 image (aspect ratio 1.85) satisfies the
claim's conditions — photo heuristic, `1.3 < aspect < 1.9`, structured
text — yet the classifier returns `unknown_document`, refuting the
claimed 1.9 bound. -/
theorem detect_layout_aspect_185_unknown :
    detect_photo_region wideCardImage = .ok true ∧
    detect_structured_text_blocks wideCardImage = .ok true ∧
    ((13 : ℚ)/10 < (wideCardImage.width : ℚ) / (wideCardImage.height : ℚ) ∧
     (wideCardImage.width : ℚ) / (wideCardImage.height : ℚ) < (19 : ℚ)/10) ∧
    detect_document_layout wideCardImage = .ok "unknown_document" := by
  refine ⟨?_, ?_, ⟨?_, ?_⟩, ?_⟩
  · rw [detect_photo_region_eq]; rfl
  · rw [detect_structured_text_blocks_eq]; rfl
  · show (13 : ℚ)/10 < ((37 : ℕ) : ℚ) / ((20 : ℕ) : ℚ)
    norm_num
  · show ((37 : ℕ) : ℚ) / ((20 : ℕ) : ℚ) < (19 : ℚ)/10
    norm_num
  · rw [detect_document_layout_eq]; rfl

/-! ## Claim C7 -/

/-- C7: contrary to the claim that the layout classifier catches every
internal exception and degrades to `unknown`, the operative
`_detect_document_layout` (enhanced_ocr.py 616–651, which overrides the
`try`/`except`-wrapped revision at lines 143–207) has no exception
handler: on a 4 × 4 image, whose left 30% crop is one column wide,
`np.gradient` raises `ValueError` inside `_detect_photo_region` and the
exception propagates to the caller. -/
theorem detect_layout_raises_on_tiny_image :
    detect_document_layout tinyImage =
      .error "ValueError: Shape of array too small to calculate a numerical gradient" := by
  rw [detect_document_layout_eq]
  rfl

/-! ## Claim C6 -/

lemma processRegionField_undersized (cy : Nat) (ct : RomanianIDType) (w h : Nat)
    (ocr : String → PyResult (String × List Int)) (field : String × RegionSpec)
    (hsz : (pyTrunc (field.2.x_end * w)).toNat - (pyTrunc (field.2.x_start * w)).toNat < 50 ∨
      (pyTrunc (field.2.y_end * h)).toNat - (pyTrunc (field.2.y_start * h)).toNat < 20) :
    processRegionField cy ct w h ocr field =
      .error ("Region too small for OCR: " ++
        toString ((pyTrunc (field.2.x_end * w)).toNat - (pyTrunc (field.2.x_start * w)).toNat) ++
        "x" ++
        toString ((pyTrunc (field.2.y_end * h)).toNat - (pyTrunc (field.2.y_start * h)).toNat)) := by
  simp only [processRegionField, enhance_region_for_ocr]
  rw [if_pos hsz]

lemma processRegionField_ocr_error (cy : Nat) (ct : RomanianIDType) (w h : Nat)
    (ocr : String → PyResult (String × List Int)) (field : String × RegionSpec)
    (er : String) (hocr : ocr field.1 = .error er) :
    (∃ e, processRegionField cy ct w h ocr field = .error e) := by
  by_cases hsz : ((pyTrunc (field.2.x_end * w)).toNat -
      (pyTrunc (field.2.x_start * w)).toNat < 50 ∨
    (pyTrunc (field.2.y_end * h)).toNat - (pyTrunc (field.2.y_start * h)).toNat < 20)
  · exact ⟨_, processRegionField_undersized cy ct w h ocr field hsz⟩
  · refine ⟨er, ?_⟩
    simp only [processRegionField, enhance_region_for_ocr]
    rw [if_neg hsz, hocr]

lemma extract_from_template_error_entries (cy w h : Nat)
    (regions : List (String × RegionSpec)) (ct : RomanianIDType)
    (ocr : String → PyResult (String × List Int)) (field : String × RegionSpec)
    (hmem : field ∈ regions) (e : String)
    (hproc : processRegionField cy ct w h ocr field = .error e) :
    (field.1, "") ∈ (extract_from_template cy w h regions ct ocr).extracted_fields ∧
    (field.1, (0 : ℚ)) ∈ (extract_from_template cy w h regions ct ocr).confidence_scores ∧
    (field.1, (⟨false, some e, none⟩ : FieldValidationR)) ∈
      (extract_from_template cy w h regions ct ocr).validation_results := by
  unfold extract_from_template
  refine ⟨?_, ?_, ?_⟩ <;>
    · simp only [List.map_map, List.mem_map, Function.comp]
      exact ⟨field, hmem, by rw [hproc]⟩

/-- C6: in `_extract_from_template` a single field's failure never
aborts the call: the result carries an entry for every field of the
region map; a field whose crop is below the minimum usable size
(width < 50 px or height < 20 px), and likewise a field on whose crop
the recognizer raises, is recorded with empty extracted value, zero
confidence and a validation error, while every other field is still
processed and the call returns a complete result. -/
theorem extract_from_template_isolates_field_failures (cy w h : Nat)
    (regions : List (String × RegionSpec)) (ct : RomanianIDType)
    (ocr : String → PyResult (String × List Int)) (field : String × RegionSpec)
    (hmem : field ∈ regions) :
    (extract_from_template cy w h regions ct ocr).extracted_fields.length = regions.length ∧
    (extract_from_template cy w h regions ct ocr).confidence_scores.length = regions.length ∧
    (extract_from_template cy w h regions ct ocr).validation_results.length = regions.length ∧
    (∃ t, (field.1, t) ∈ (extract_from_template cy w h regions ct ocr).extracted_fields) ∧
    (((pyTrunc (field.2.x_end * w)).toNat - (pyTrunc (field.2.x_start * w)).toNat < 50 ∨
      (pyTrunc (field.2.y_end * h)).toNat - (pyTrunc (field.2.y_start * h)).toNat < 20) →
      ∃ e, (field.1, "") ∈ (extract_from_template cy w h regions ct ocr).extracted_fields ∧
        (field.1, (0 : ℚ)) ∈ (extract_from_template cy w h regions ct ocr).confidence_scores ∧
        (field.1, (⟨false, some e, none⟩ : FieldValidationR)) ∈
          (extract_from_template cy w h regions ct ocr).validation_results) ∧
    ((∃ er, ocr field.1 = .error er) →
      ∃ e, (field.1, "") ∈ (extract_from_template cy w h regions ct ocr).extracted_fields ∧
        (field.1, (0 : ℚ)) ∈ (extract_from_template cy w h regions ct ocr).confidence_scores ∧
        (field.1, (⟨false, some e, none⟩ : FieldValidationR)) ∈
          (extract_from_template cy w h regions ct ocr).validation_results) := by
  refine ⟨?_, ?_, ?_, ?_, ?_, ?_⟩
  · simp [extract_from_template]
  · simp [extract_from_template]
  · simp [extract_from_template]
  · cases hproc : processRegionField cy ct w h ocr field
    case error e =>
      exact ⟨"", (extract_from_template_error_entries cy w h regions ct ocr field
        hmem e hproc).1⟩
    case ok v =>
      refine ⟨v.1, ?_⟩
      unfold extract_from_template
      simp only [List.map_map, List.mem_map, Function.comp]
      exact ⟨field, hmem, by rw [hproc]⟩
  · intro hsz
    exact ⟨_, extract_from_template_error_entries cy w h regions ct ocr field hmem _
      (processRegionField_undersized cy ct w h ocr field hsz)⟩
  · rintro ⟨er, hocr⟩
    obtain ⟨e, hproc⟩ := processRegionField_ocr_error cy ct w h ocr field er hocr
    exact ⟨e, extract_from_template_error_entries cy w h regions ct ocr field hmem e hproc⟩

/-- C6 witness: the CNP region of the standard-card template on a
60 × 40 image crops to 16 × 1 pixels, below the minimum usable size. -/
theorem extract_from_template_isolates_field_failures_witness :
    (("cnp", (⟨(305 : ℚ)/1000, (570 : ℚ)/1000, (267 : ℚ)/1000, (307 : ℚ)/1000,
        "--psm 8 -c tessedit_char_whitelist=0123456789"⟩ : RegionSpec)) ∈
      ci_standard_regions) ∧
    ((extract_from_template 2026 60 40 ci_standard_regions RomanianIDType.CI_STANDARD
        (fun _ => .ok ("X", [50]))).extracted_fields.length = ci_standard_regions.length ∧
     (extract_from_template 2026 60 40 ci_standard_regions RomanianIDType.CI_STANDARD
        (fun _ => .ok ("X", [50]))).confidence_scores.length = ci_standard_regions.length ∧
     (extract_from_template 2026 60 40 ci_standard_regions RomanianIDType.CI_STANDARD
        (fun _ => .ok ("X", [50]))).validation_results.length = ci_standard_regions.length ∧
     (∃ t, ("cnp", t) ∈ (extract_from_template 2026 60 40 ci_standard_regions
        RomanianIDType.CI_STANDARD (fun _ => .ok ("X", [50]))).extracted_fields) ∧
     (((pyTrunc (((570 : ℚ)/1000) * (60 : Nat))).toNat -
         (pyTrunc (((305 : ℚ)/1000) * (60 : Nat))).toNat < 50 ∨
       (pyTrunc (((307 : ℚ)/1000) * (40 : Nat))).toNat -
         (pyTrunc (((267 : ℚ)/1000) * (40 : Nat))).toNat < 20) →
       ∃ e, ("cnp", "") ∈ (extract_from_template 2026 60 40 ci_standard_regions
           RomanianIDType.CI_STANDARD (fun _ => .ok ("X", [50]))).extracted_fields ∧
         ("cnp", (0 : ℚ)) ∈ (extract_from_template 2026 60 40 ci_standard_regions
           RomanianIDType.CI_STANDARD (fun _ => .ok ("X", [50]))).confidence_scores ∧
         ("cnp", (⟨false, some e, none⟩ : FieldValidationR)) ∈
           (extract_from_template 2026 60 40 ci_standard_regions
             RomanianIDType.CI_STANDARD (fun _ => .ok ("X", [50]))).validation_results) ∧
     ((∃ er, (fun (_ : String) => (.ok ("X", [50]) : PyResult (String × List Int))) "cnp" =
         .error er) →
       ∃ e, ("cnp", "") ∈ (extract_from_template 2026 60 40 ci_standard_regions
           RomanianIDType.CI_STANDARD (fun _ => .ok ("X", [50]))).extracted_fields ∧
         ("cnp", (0 : ℚ)) ∈ (extract_from_template 2026 60 40 ci_standard_regions
           RomanianIDType.CI_STANDARD (fun _ => .ok ("X", [50]))).confidence_scores ∧
         ("cnp", (⟨false, some e, none⟩ : FieldValidationR)) ∈
           (extract_from_template 2026 60 40 ci_standard_regions
             RomanianIDType.CI_STANDARD (fun _ => .ok ("X", [50]))).validation_results)) :=
  ⟨by simp [ci_standard_regions],
   extract_from_template_isolates_field_failures 2026 60 40 ci_standard_regions
     RomanianIDType.CI_STANDARD (fun _ => .ok ("X", [50]))
     ("cnp", ⟨(305 : ℚ)/1000, (570 : ℚ)/1000, (267 : ℚ)/1000, (307 : ℚ)/1000,
        "--psm 8 -c tessedit_char_whitelist=0123456789"⟩)
     (by simp [ci_standard_regions])⟩

/-! ## Claim C8 -/

/-- C8 (refuted as a code bug): contrary to the claim, the operative
`_extract_structured_data` can never record validation markers for a
validator-bearing field.  The only registry fields with an attached
validator belong to the `ro_identity_card` template (first conjunct),
and for that template the branch at enhanced_ocr.py line 870
unconditionally evaluates the undefined name `MultiTemplateIDProcessor`
(its import at line 16 is commented out), so for every input text and
oracle the call raises `NameError` before the field loop can run
(second conjunct). -/
theorem structured_data_id_template_raises (cy : Nat)
    (reMatch : String → String → Option String) (labV medV : PyValue)
    (text : String) :
    (∀ t ∈ get_all_templates, ∀ field ∈ t.extraction_fields,
        field.validation_func ≠ none → t.template_id = "ro_identity_card") ∧
    extract_structured_data cy reMatch labV medV get_all_templates text
        "ro_identity_card" =
      .error "NameError: name \x27MultiTemplateIDProcessor\x27 is not defined" := by
  constructor
  · intro t ht field hf hv
    simp only [get_all_templates, List.mem_cons, List.not_mem_nil, or_false] at ht
    rcases ht with rfl | rfl | rfl
    · rfl
    · simp only [get_lab_result_template, List.mem_cons, List.not_mem_nil,
        or_false] at hf
      rcases hf with rfl | rfl | rfl | rfl <;> simp at hv
    · simp only [get_prescription_template, List.mem_cons, List.not_mem_nil,
        or_false] at hf
      rcases hf with rfl | rfl | rfl <;> simp at hv
  · rfl

end ReconoMed
